import Mathlib

/-!
Verification of the AiAyat chat client.

This file is a shallow embedding of the session/streaming core of the
application (the top-level application controller, the side-menu
export/import handlers and the completion-client request builder),
together with theorems settling the specification claims about it.

Modelling conventions:
* Stateful React code becomes explicit state passing on an `AppState`
  record.  `setSessions(prev => ...)` functional updates are applied
  sequentially to the real state.
* Event handlers close over the render-time value of `messages` /
  `currentSessionId` / `selectedModel`.  Those closure values are passed
  explicitly (`snapshot`, `sid`, `selModel`) and are distinct from the
  live state that the sequential `setSessions` updates act on; this is
  what makes the embedding faithful to the stale-closure semantics of
  the source.
* `Date.now()` results are external inputs and are passed as parameters
  (`now`, and the freshly generated message-id strings).
* JavaScript truthiness is translated where it matters: a missing or
  empty `apiKey` string is falsy, `error.message || "Unknown"` treats
  the empty string as absent, `attachments || []` only replaces
  `undefined`.
* `text.slice(0, 30)` is modelled on the character list of the string.
* The localStorage sessions document is modelled as the `stored` field
  (at the data level; JSON stringify/parse of these plain records is the
  identity on every field the claims mention).
-/

/-- The four model identifiers of `GeminiModelId` in the source
(`gemini-3-pro-preview`, `gemini-2.0-pro-exp-02-05`, `gemini-2.5-flash`,
`gemini-flash-lite-latest`). -/
inductive GeminiModelId where
  | gemini3ProPreview
  | gemini20ProExp0205
  | gemini25Flash
  | geminiFlashLiteLatest
deriving DecidableEq

/-- The `type` tag of an attachment. -/
inductive AttachmentKind where
  | image
  | audio
  | pdf
  | other
deriving DecidableEq

/-- An `Attachment` record.  `fileType` stands for `file.type` (the MIME
type of the attached browser `File` handle, the only part of the handle
the core reads); `base64` is the optional encoded payload. -/
structure Attachment where
  fileType : String
  previewUrl : String
  kind : AttachmentKind
  base64 : Option String
deriving DecidableEq

/-- Message role: `user` or `model`. -/
inductive Role where
  | user
  | model
deriving DecidableEq

/-- A `Message` record.  The optional boolean fields of the source are
booleans here (an absent field is falsy, like `false`); `attachments?`
is genuinely optional because the code distinguishes `undefined` from a
present array (`msg.attachments || []`). -/
structure Message where
  id : String
  role : Role
  text : String
  isStreaming : Bool := false
  error : Bool := false
  isHidden : Bool := false
  attachments : Option (List Attachment) := none
  modelId : Option GeminiModelId := none
deriving DecidableEq

/-- A `ChatSession` record. -/
structure ChatSession where
  id : String
  title : String
  messages : List Message
  updatedAt : Nat
deriving DecidableEq

/-- `UserSettings`: the credential record. -/
structure UserSettings where
  apiKey : String
  userName : String
deriving DecidableEq

/-- The application state owned by the top-level controller:
the session list, the active-session pointer, the selected model, the
loading flag, the cooperative stop flag (`stopGenerationRef`), the
optional credential record, and the persisted sessions document
(`localStorage` key `ayat_chat_sessions`, at the data level). -/
structure AppState where
  sessions : List ChatSession
  currentSessionId : Option String
  selectedModel : GeminiModelId
  isLoading : Bool
  stopGeneration : Bool
  userSettings : Option UserSettings
  stored : List ChatSession
deriving DecidableEq

/-- Substring test on character lists: JavaScript `hay.includes(needle)`. -/
def listContains (needle : List Char) : List Char → Bool
  | [] => needle.isEmpty
  | c :: rest => needle.isPrefixOf (c :: rest) || listContains needle rest

/-- JavaScript `hay.includes(needle)` on strings. -/
def strIncludes (hay needle : String) : Bool :=
  listContains needle.data hay.data

/-- JavaScript `s.slice(0, n)` (prefix of at most `n` characters). -/
def strSlice (s : String) (n : Nat) : String :=
  String.mk (s.data.take n)

/-- The default title given to a fresh session. -/
def defaultTitle : String := "محادثة جديدة (New Chat)"

/-- `currentSession = sessions.find(s => s.id === currentSessionId)`;
a `null` pointer matches no session. -/
def currentSession (st : AppState) : Option ChatSession :=
  match st.currentSessionId with
  | none => none
  | some sid => st.sessions.find? (fun s => decide (s.id = sid))

/-- `messages = currentSession?.messages || []`. -/
def currentMessages (st : AppState) : List Message :=
  match currentSession st with
  | some s => s.messages
  | none => []

/-- Update every session whose id matches `sid` (the shape of every
`setSessions(prev => prev.map(s => s.id === sid ? ... : s))` call). -/
def mapCurrentSessions (sessions : List ChatSession) (sid : String)
    (g : ChatSession → ChatSession) : List ChatSession :=
  sessions.map (fun s => if s.id = sid then g s else s)

/-- The title computed inside `updateCurrentMessages`: when the session
had zero messages, the new list is nonempty and the title still contains
the default placeholder text, derive the title from the first message
with role `user` (`newMessages.find(m => m.role === 'user')`), truncated
to 30 characters with an ellipsis marker if longer; otherwise keep the
old title. -/
def deriveNewTitle (s : ChatSession) (newMessages : List Message) : String :=
  if s.messages.length = 0 ∧ 0 < newMessages.length ∧ strIncludes s.title "New Chat" = true then
    match newMessages.find? (fun m => decide (m.role = Role.user)) with
    | some firstMsg =>
        strSlice firstMsg.text 30 ++ (if firstMsg.text.length > 30 then "..." else "")
    | none => s.title
  else s.title

/-- `updateCurrentMessages(newMessages)`: no-op without an active
session; otherwise replaces the active session's message list, derives
the title, and bumps `updatedAt` to the current time `now`. -/
def updateCurrentMessages (st : AppState) (newMessages : List Message) (now : Nat) : AppState :=
  match st.currentSessionId with
  | none => st
  | some sid =>
      { st with sessions := mapCurrentSessions st.sessions sid (fun s =>
          { s with messages := newMessages, title := deriveNewTitle s newMessages,
                   updatedAt := now }) }

/-- The fresh session built by `createNewSession` at time `now`
(`id = Date.now().toString()`, default title, no messages). -/
def newChatSession (now : Nat) : ChatSession :=
  { id := Nat.repr now, title := defaultTitle, messages := [], updatedAt := now }

/-- `createNewSession()`: prepend a fresh empty session and make it
active. -/
def createNewSession (st : AppState) (now : Nat) : AppState :=
  { st with sessions := newChatSession now :: st.sessions,
            currentSessionId := some (newChatSession now).id }

/-- `deleteSession(id)`: filter the session out, write the filtered list
to storage immediately, and when the deleted session was active select
the head of the remaining list or create a fresh session. -/
def deleteSession (st : AppState) (id : String) (now : Nat) : AppState :=
  let newSessions := st.sessions.filter (fun s => decide (s.id ≠ id))
  let st1 := { st with sessions := newSessions, stored := newSessions }
  if st.currentSessionId = some id then
    match newSessions with
    | first :: _ => { st1 with currentSessionId := some first.id }
    | [] => createNewSession st1 now
  else st1

/-- `handleStop()`: set the shared stop flag, clear the loading flag,
and finalize every streaming message of the active session by appending
the `"..."` truncation marker and clearing `isStreaming`. -/
def handleStop (st : AppState) : AppState :=
  let st1 := { st with stopGeneration := true, isLoading := false }
  match st1.currentSessionId with
  | none => st1
  | some sid =>
      { st1 with sessions := mapCurrentSessions st1.sessions sid (fun s =>
          { s with messages := s.messages.map (fun m =>
              if m.isStreaming then { m with isStreaming := false, text := m.text ++ "..." }
              else m) }) }

/-- The union-typed second parameter of `handleSend`: either an
attachment array or the hidden flag. -/
inductive AttachmentsParam where
  | hiddenFlag (b : Bool)
  | files (atts : List Attachment)

/-- `typeof attachments === 'boolean' ? attachments : false`. -/
def hiddenOfParam : AttachmentsParam → Bool
  | .hiddenFlag b => b
  | .files _ => false

/-- `Array.isArray(attachments) ? attachments : []`. -/
def filesOfParam : AttachmentsParam → List Attachment
  | .hiddenFlag _ => []
  | .files atts => atts

/-- The user message constructed by `handleSend`. -/
def mkUserMessage (userMsgId : String) (text : String) (p : AttachmentsParam)
    (model : GeminiModelId) : Message :=
  { id := userMsgId, role := Role.user, text := text,
    isHidden := hiddenOfParam p, attachments := some (filesOfParam p),
    modelId := some model }

/-- The empty streaming placeholder appended by `handleSend`. -/
def mkBotMessage (botMsgId : String) (model : GeminiModelId) : Message :=
  { id := botMsgId, role := Role.model, text := "", isStreaming := true,
    modelId := some model }

/-- Insert a session into a list sorted by `updatedAt` descending,
before the first entry whose `updatedAt` is not larger (stability:
earlier entries with equal keys stay first). -/
def insertByUpdatedAtDesc (x : ChatSession) : List ChatSession → List ChatSession
  | [] => [x]
  | t :: rest =>
      if t.updatedAt > x.updatedAt then t :: insertByUpdatedAtDesc x rest
      else x :: t :: rest

/-- The stable sort `parsed.sort((a, b) => b.updatedAt - a.updatedAt)`
performed by the session load effect (JavaScript sort is stable). -/
def sortByUpdatedAtDesc : List ChatSession → List ChatSession
  | [] => []
  | x :: xs => insertByUpdatedAtDesc x (sortByUpdatedAtDesc xs)

/-- The session load effect applied to a stored sessions document:
sort by `updatedAt` descending; activate the head, or create a fresh
session when the document is empty.  Returns the session list and the
active pointer. -/
def loadSessions (saved : List ChatSession) (now : Nat) : List ChatSession × Option String :=
  let parsed := sortByUpdatedAtDesc saved
  match parsed with
  | first :: _ => (parsed, some first.id)
  | [] => ([newChatSession now], some (newChatSession now).id)

/-- Export followed by import of the exact exported payload followed by
the reload that importing performs: the export serializes the session
list, the importer stores that same array wholesale, and the reload runs
the session load effect on it.  (JSON stringify/parse round-trips these
records at the data level.) -/
def importRoundTrip (sessions : List ChatSession) (now : Nat) : List ChatSession :=
  (loadSessions sessions now).1

/-- A parsed JSON value (the result of `JSON.parse`). -/
inductive Json where
  | null
  | boolVal (b : Bool)
  | numVal (n : Int)
  | strVal (s : String)
  | arrVal (items : List Json)
  | objVal (fields : List (String × Json))

/-- Outcome of the import handler: the sessions document after the
attempt, whether a user-facing notice was shown, and whether the page
reload was triggered. -/
structure ImportResult where
  stored : Option Json
  alerted : Bool
  reloaded : Bool

/-- `handleImport` applied to the parse result of the selected file
(`none` models a `JSON.parse` failure): only a top-level array is
accepted; it overwrites the stored document and reloads; anything else
alerts and leaves the store untouched. -/
def handleImport (parsed : Option Json) (store : Option Json) : ImportResult :=
  match parsed with
  | some (Json.arrVal items) =>
      { stored := some (Json.arrVal items), alerted := false, reloaded := true }
  | some _ => { stored := store, alerted := true, reloaded := false }
  | none => { stored := store, alerted := true, reloaded := false }

/-- One part of the multimodal request payload. -/
inductive GeminiPart where
  | textPart (text : String)
  | inlineData (mimeType : String) (data : String)
deriving DecidableEq

/-- The request the completion client would hand to the vendor SDK. -/
structure StreamRequest where
  modelId : GeminiModelId
  apiKey : String
  payload : Sum String (List GeminiPart)
deriving DecidableEq

/-- `sendMessageStream` up to the vendor call: fails when the credential
is empty (before building any payload); otherwise builds the multimodal
parts (inline attachment parts before the trailing text part) and
degenerates to the plain message when there is a single part. -/
def sendMessageStream (message : String) (attachments : List Attachment)
    (modelId : GeminiModelId) (apiKey : String) : Except String StreamRequest :=
  if apiKey = "" then Except.error "API Key is required"
  else
    let parts : List GeminiPart :=
      if attachments.length > 0 then
        attachments.map (fun att => GeminiPart.inlineData att.fileType (att.base64.getD ""))
          ++ [GeminiPart.textPart message]
      else [GeminiPart.textPart message]
    Except.ok { modelId := modelId, apiKey := apiKey,
                payload := if parts.length = 1 then Sum.inl message else Sum.inr parts }

/-- An observable event inside the streaming consume loop: a chunk
arriving at wall-clock time `now`, or the user clicking stop between
chunk arrivals. -/
inductive StreamEvent where
  | chunk (text : String) (now : Nat)
  | stopClick
deriving DecidableEq

/-- The local state of one run of the consume loop: the live application
state, the accumulating buffer `fullText`, the throttle timestamp
`lastUpdateTime`, and whether the loop already exited via `break`. -/
structure RunState where
  app : AppState
  fullText : String
  lastUpdateTime : Nat
  broke : Bool

/-- A `setSessions` patch of every message with the placeholder id in
the session the send closure points at (`s.id === currentSessionId`,
`m.id === botMessageId`). -/
def patchBotMessage (st : AppState) (sid : Option String) (botMsgId : String)
    (f : Message → Message) : AppState :=
  match sid with
  | none => st
  | some sid0 =>
      { st with sessions := mapCurrentSessions st.sessions sid0 (fun s =>
          { s with messages := s.messages.map (fun m =>
              if m.id = botMsgId then f m else m) }) }

/-- One iteration of the consume loop.  After a `break` nothing further
happens.  A stop click runs `handleStop` on the live state.  A chunk is
dropped when the stop flag is up (`break` before reading it); otherwise
it is appended to the buffer, and the visible placeholder text is
flushed only when more than 50ms passed since the last flush. -/
def streamStep (sid : Option String) (botMsgId : String) (rs : RunState)
    (ev : StreamEvent) : RunState :=
  if rs.broke then rs
  else
    match ev with
    | StreamEvent.stopClick => { rs with app := handleStop rs.app }
    | StreamEvent.chunk t tNow =>
        if rs.app.stopGeneration then { rs with broke := true }
        else
          let fullText := rs.fullText ++ t
          if tNow - rs.lastUpdateTime > 50 then
            { rs with fullText := fullText, lastUpdateTime := tNow,
                      app := patchBotMessage rs.app sid botMsgId
                               (fun m => { m with text := fullText }) }
          else { rs with fullText := fullText }

/-- How the stream source ends after the observed events: it is exhausted
(the loop exits normally), it hangs forever (the loop stays pending), or
it raises an error whose optional `message` text is given. -/
inductive StreamEnding where
  | complete
  | hang
  | fail (message : Option String)

/-- `error.message?.includes('429') || ... 'quota' || ... 'exhausted'`;
an absent message is falsy. -/
def isQuotaError : Option String → Bool
  | none => false
  | some m => strIncludes m "429" || strIncludes m "quota" || strIncludes m "exhausted"

/-- The suffix appended on the generic error path:
`"\n(Connection Error: " + (error.message || "Unknown") + ")"` (an
absent or empty message prints as `Unknown`). -/
def connectionSuffix (message : Option String) : String :=
  "\n(Connection Error: " ++
    (match message with
     | some m => if m = "" then "Unknown" else m
     | none => "Unknown") ++ ")"

/-- The fixed bilingual retry notice written on the quota-fallback path. -/
def quotaNotice : String :=
  "⚠️ **High Traffic on Pro Model**\nSwitching to **Gemini 2.5 Flash** for unlimited speed...\n\n(Please retry your last message)"

/-- The final-update `setSessions`: write the full accumulated buffer
into the placeholder and clear `isStreaming`. -/
def finalFlush (st : AppState) (sid : Option String) (botMsgId : String)
    (fullText : String) : AppState :=
  patchBotMessage st sid botMsgId
    (fun m => { m with text := fullText, isStreaming := false })

/-- The catch block of `handleSend`: on a quota-indicating error while
the closure-captured selected model was the top-tier model, switch the
selection to the fallback model and replace the placeholder text with
the fixed notice; otherwise append the connection-error suffix to the
placeholder's current text.  Both paths set `error` and clear
`isStreaming`. -/
def applySendFailure (st : AppState) (sid : Option String) (botMsgId : String)
    (selModel : GeminiModelId) (message : Option String) : AppState :=
  if isQuotaError message = true ∧ selModel = GeminiModelId.gemini3ProPreview then
    let st1 := { st with selectedModel := GeminiModelId.gemini25Flash }
    patchBotMessage st1 sid botMsgId
      (fun m => { m with text := quotaNotice, error := true, isStreaming := false })
  else
    patchBotMessage st sid botMsgId
      (fun m => { m with text := m.text ++ connectionSuffix message,
                         error := true, isStreaming := false })

/-- One full run of `handleSend(text, attachments)`.

`snapshot` is the render-time value of `messages` the handler closed
over, `userMsgId`/`botMsgId` the freshly generated id strings, `now` the
wall-clock time, `events` the observed chunk/stop interleaving and
`ending` how the stream source ends.  The guard returns the state
untouched when no non-empty credential is configured.  Otherwise: clear
the stop flag, append the user message and the streaming placeholder
(two sequential `updateCurrentMessages` calls), set the loading flag,
consume the stream, and finish with the final flush (loop exited,
normally or via `break`), with nothing (loop still pending on a hung
stream), or with the catch block; the `finally` clears the loading flag
on every completed path. -/
def runHandleSend (st : AppState) (snapshot : List Message) (text : String)
    (p : AttachmentsParam) (userMsgId botMsgId : String) (now : Nat)
    (events : List StreamEvent) (ending : StreamEnding) : AppState :=
  match st.userSettings with
  | none => st
  | some settings =>
    if settings.apiKey = "" then st
    else
      let sid := st.currentSessionId
      let selModel := st.selectedModel
      let st0 := { st with stopGeneration := false }
      let userMessage := mkUserMessage userMsgId text p selModel
      let newMessagesWithUser := snapshot ++ [userMessage]
      let st1 := { updateCurrentMessages st0 newMessagesWithUser now with isLoading := true }
      let newMessagesWithBot := newMessagesWithUser ++ [mkBotMessage botMsgId selModel]
      let st2 := updateCurrentMessages st1 newMessagesWithBot now
      let rsN := events.foldl (streamStep sid botMsgId)
                   { app := st2, fullText := "", lastUpdateTime := 0, broke := false }
      if rsN.broke then
        { finalFlush rsN.app sid botMsgId rsN.fullText with isLoading := false }
      else
        match ending with
        | StreamEnding.complete =>
            { finalFlush rsN.app sid botMsgId rsN.fullText with isLoading := false }
        | StreamEnding.hang => rsN.app
        | StreamEnding.fail message =>
            { applySendFailure rsN.app sid botMsgId selModel message with isLoading := false }

/-- `handleSend` invoked directly from the composer: the closure
snapshot is the current session's message list. -/
def handleSend (st : AppState) (text : String) (p : AttachmentsParam)
    (userMsgId botMsgId : String) (now : Nat) (events : List StreamEvent)
    (ending : StreamEnding) : AppState :=
  runHandleSend st (currentMessages st) text p userMsgId botMsgId now events ending

/-- `handleResend(index)`: truncate the session to the messages before
`index` and replay `handleSend` with the indexed message's text and
attachments.  The replay still closes over the render-time `messages`
snapshot (not the truncated list).  An out-of-range index never reaches
this handler from the UI and is a no-op here. -/
def handleResend (st : AppState) (index : Nat) (userMsgId botMsgId : String)
    (now : Nat) (events : List StreamEvent) (ending : StreamEnding) : AppState :=
  let msgs := currentMessages st
  match msgs.get? index with
  | none => st
  | some msgToResend =>
      let st1 := updateCurrentMessages st (msgs.take index) now
      runHandleSend st1 msgs msgToResend.text
        (AttachmentsParam.files (msgToResend.attachments.getD []))
        userMsgId botMsgId now events ending

/-- Count of in-flight (streaming) messages in one list. -/
def countStreaming (ms : List Message) : Nat :=
  ms.countP (fun m => m.isStreaming)

/-- The application states an observer can see during one run of
`handleSend`: the entry state, the state after the user message is
appended, after the placeholder is appended, after every consume-loop
step, and the final state. -/
def sendTrace (st : AppState) (snapshot : List Message) (text : String)
    (p : AttachmentsParam) (userMsgId botMsgId : String) (now : Nat)
    (events : List StreamEvent) (ending : StreamEnding) : List AppState :=
  match st.userSettings with
  | none => [st]
  | some settings =>
    if settings.apiKey = "" then [st]
    else
      let sid := st.currentSessionId
      let selModel := st.selectedModel
      let st0 := { st with stopGeneration := false }
      let newMessagesWithUser := snapshot ++ [mkUserMessage userMsgId text p selModel]
      let st1 := { updateCurrentMessages st0 newMessagesWithUser now with isLoading := true }
      let newMessagesWithBot := newMessagesWithUser ++ [mkBotMessage botMsgId selModel]
      let st2 := updateCurrentMessages st1 newMessagesWithBot now
      st :: st1 :: st2 ::
        ((events.scanl (streamStep sid botMsgId)
            { app := st2, fullText := "", lastUpdateTime := 0, broke := false }).map RunState.app)
        ++ [runHandleSend st snapshot text p userMsgId botMsgId now events ending]

/-- Concatenation of the chunk texts of an event list onto an
accumulator (what the consume loop accumulates into `fullText`). -/
def chunksTextFrom (acc : String) (events : List StreamEvent) : String :=
  events.foldl (fun acc ev =>
    match ev with
    | StreamEvent.chunk t _ => acc ++ t
    | StreamEvent.stopClick => acc) acc

/-- Concatenation of the chunk texts of an event list. -/
def chunksTextOf (events : List StreamEvent) : String :=
  chunksTextFrom "" events

/-- A configured credential record used in concrete runs. -/
def demoSettings : UserSettings := { apiKey := "k", userName := "u" }

/-- A sent user message of a populated demo session. -/
def demoUserMsg : Message :=
  { id := "m1", role := Role.user, text := "hello", attachments := some [],
    modelId := some GeminiModelId.gemini3ProPreview }

/-- A finished model reply of a populated demo session. -/
def demoBotMsg : Message :=
  { id := "m2", role := Role.model, text := "reply",
    modelId := some GeminiModelId.gemini3ProPreview }

/-- A populated demo session (two messages, user-edited title). -/
def demoSession : ChatSession :=
  { id := "s1", title := "T", messages := [demoUserMsg, demoBotMsg], updatedAt := 5 }

/-- A quiescent application state with one populated session. -/
def demoState : AppState :=
  { sessions := [demoSession], currentSessionId := some "s1",
    selectedModel := GeminiModelId.gemini3ProPreview, isLoading := false,
    stopGeneration := false, userSettings := some demoSettings,
    stored := [demoSession] }

/-- A state whose credential record was never configured. -/
def noKeyState : AppState :=
  { sessions := [demoSession], currentSessionId := some "s1",
    selectedModel := GeminiModelId.gemini3ProPreview, isLoading := false,
    stopGeneration := false, userSettings := none, stored := [demoSession] }

/-- A state holding one fresh session (no messages, default title). -/
def freshState : AppState :=
  { sessions := [{ id := "s1", title := defaultTitle, messages := [], updatedAt := 0 }],
    currentSessionId := some "s1", selectedModel := GeminiModelId.gemini3ProPreview,
    isLoading := false, stopGeneration := false, userSettings := some demoSettings,
    stored := [] }

/-- A message list whose first user message is hidden and whose second
user message is visible. -/
def hiddenFirst : List Message :=
  [ { id := "h1", role := Role.user, text := "hidden question", isHidden := true },
    { id := "v1", role := Role.user, text := "visible question" } ]

/-- An exported session whose `updatedAt` is older. -/
def cexOldSession : ChatSession := { id := "old", title := "t1", messages := [], updatedAt := 0 }

/-- An exported session whose `updatedAt` is newer. -/
def cexNewSession : ChatSession := { id := "new", title := "t2", messages := [], updatedAt := 1 }

/-- A reachable state in which the session list is not ordered by
`updatedAt` (the active session A was created after C, then B was
bumped by a later message): deleting A must pick a successor. -/
def cexDelState : AppState :=
  { sessions := [ { id := "A", title := "a", messages := [], updatedAt := 10 },
                  { id := "C", title := "c", messages := [], updatedAt := 9 },
                  { id := "B", title := "b", messages := [], updatedAt := 11 } ],
    currentSessionId := some "A", selectedModel := GeminiModelId.gemini3ProPreview,
    isLoading := false, stopGeneration := false, userSettings := some demoSettings,
    stored := [] }

theorem strAppend_empty (s : String) : s ++ "" = s := by
  cases s with
  | mk data =>
      show String.mk (data ++ []) = String.mk data
      rw [List.append_nil]

theorem strSlice_of_length_le (s : String) (n : Nat) (h : s.length ≤ n) :
    strSlice s n = s := by
  cases s with
  | mk data =>
      unfold strSlice
      have hd : data.length ≤ n := h
      rw [List.take_of_length_le hd]

theorem insertByUpdatedAtDesc_of_ge (x : ChatSession) (l : List ChatSession)
    (h : ∀ y ∈ l, y.updatedAt ≤ x.updatedAt) : insertByUpdatedAtDesc x l = x :: l := by
  cases l with
  | nil => rfl
  | cons t rest =>
      have ht := h t (by simp)
      unfold insertByUpdatedAtDesc
      rw [if_neg (by omega)]

theorem sortByUpdatedAtDesc_of_sorted (l : List ChatSession)
    (h : l.Pairwise (fun a b => b.updatedAt ≤ a.updatedAt)) :
    sortByUpdatedAtDesc l = l := by
  induction l with
  | nil => rfl
  | cons x xs ih =>
      rw [List.pairwise_cons] at h
      unfold sortByUpdatedAtDesc
      rw [ih h.2, insertByUpdatedAtDesc_of_ge x xs h.1]

theorem find?_mapCurrentSessions (sessions : List ChatSession) (sid sid' : String)
    (g : ChatSession → ChatSession) (hg : ∀ s, (g s).id = s.id) :
    (mapCurrentSessions sessions sid' g).find? (fun s => decide (s.id = sid)) =
      Option.map (fun s => if s.id = sid' then g s else s)
        (sessions.find? (fun s => decide (s.id = sid))) := by
  unfold mapCurrentSessions
  rw [List.find?_map]
  have hp : ((fun s => decide (s.id = sid)) ∘ fun s => if s.id = sid' then g s else s) =
      (fun s : ChatSession => decide (s.id = sid)) := by
    funext s
    by_cases h : s.id = sid' <;> simp [Function.comp, h, hg]
  rw [hp]

theorem find?_mapCurrentSessions_some (sessions : List ChatSession) (sid : String)
    (g : ChatSession → ChatSession) (hg : ∀ s, (g s).id = s.id) (s0 : ChatSession)
    (hfind : sessions.find? (fun s => decide (s.id = sid)) = some s0) :
    (mapCurrentSessions sessions sid g).find? (fun s => decide (s.id = sid)) = some (g s0) := by
  rw [find?_mapCurrentSessions sessions sid sid g hg, hfind]
  have hid : s0.id = sid :=
    of_decide_eq_true (List.find?_some (p := fun s : ChatSession => decide (s.id = sid)) hfind)
  simp [Option.map, hid]

/-- C10: the second parameter of `handleSend` does double duty — a
boolean becomes the hidden flag with an empty attachment list, an array
becomes the attachment list with the hidden flag false; hence a sent
user message that is hidden always carries the empty attachment list. -/
theorem attachments_param_spec :
    (∀ b, hiddenOfParam (AttachmentsParam.hiddenFlag b) = b ∧
          filesOfParam (AttachmentsParam.hiddenFlag b) = []) ∧
    (∀ atts, hiddenOfParam (AttachmentsParam.files atts) = false ∧
             filesOfParam (AttachmentsParam.files atts) = atts) ∧
    (∀ userMsgId text p model,
        (mkUserMessage userMsgId text p model).isHidden = true →
        (mkUserMessage userMsgId text p model).attachments = some []) := by
  refine ⟨fun b => ⟨rfl, rfl⟩, fun atts => ⟨rfl, rfl⟩, ?_⟩
  intro uId text p model h
  cases p with
  | hiddenFlag b => rfl
  | files atts => simp [mkUserMessage, hiddenOfParam] at h

/-- C10 witness: a hidden send carries no attachments on a concrete
input. -/
theorem attachments_param_spec_witness :
    (mkUserMessage "u" "t" (AttachmentsParam.hiddenFlag true)
        GeminiModelId.gemini25Flash).attachments = some [] :=
  attachments_param_spec.2.2 "u" "t" (AttachmentsParam.hiddenFlag true)
    GeminiModelId.gemini25Flash rfl

/-- C8: with no credential configured (no settings record, or an empty
key, which is falsy) `handleSend` returns the state untouched for every
snapshot, input and stream behaviour; and the completion client's
streaming send fails with the fixed error before constructing any
payload when the supplied credential is empty. -/
theorem credential_guard_spec (st : AppState)
    (h : st.userSettings = none ∨ ∃ u, st.userSettings = some u ∧ u.apiKey = "") :
    (∀ snapshot text p userMsgId botMsgId now events ending,
        runHandleSend st snapshot text p userMsgId botMsgId now events ending = st) ∧
    (∀ message attachments modelId,
        sendMessageStream message attachments modelId "" =
          Except.error "API Key is required") := by
  constructor
  · intro snapshot text p uId bId now events ending
    rcases h with h | ⟨u, hu, hk⟩
    · simp [runHandleSend, h]
    · simp [runHandleSend, hu, hk]
  · intro m atts mid
    simp [sendMessageStream]

/-- C8 witness: concrete unconfigured state. -/
theorem credential_guard_spec_witness :
    (∀ snapshot text p userMsgId botMsgId now events ending,
        runHandleSend noKeyState snapshot text p userMsgId botMsgId now events ending
          = noKeyState) ∧
    (∀ message attachments modelId,
        sendMessageStream message attachments modelId "" =
          Except.error "API Key is required") :=
  credential_guard_spec noKeyState (Or.inl rfl)

/-- C9: import accepts exactly a top-level array (any element shape):
it overwrites the stored document with the parsed array and triggers the
reload; a parse failure or a non-array value alerts and leaves the
stored document untouched. -/
theorem import_validation_spec (parsed : Option Json) (store : Option Json) :
    (∀ items, parsed = some (Json.arrVal items) →
        handleImport parsed store =
          { stored := some (Json.arrVal items), alerted := false, reloaded := true }) ∧
    ((∀ items, parsed ≠ some (Json.arrVal items)) →
        handleImport parsed store = { stored := store, alerted := true, reloaded := false }) := by
  constructor
  · rintro items rfl
    rfl
  · intro hna
    match parsed with
    | none => rfl
    | some (Json.arrVal items) => exact absurd rfl (hna items)
    | some Json.null => rfl
    | some (Json.boolVal b) => rfl
    | some (Json.numVal n) => rfl
    | some (Json.strVal s) => rfl
    | some (Json.objVal fields) => rfl

/-- C9 witness: an array of bare numbers is accepted wholesale (no
per-record validation), and a non-array with a prior store is
rejected leaving the store untouched. -/
theorem import_validation_spec_witness :
    handleImport (some (Json.arrVal [Json.numVal 5])) none =
      { stored := some (Json.arrVal [Json.numVal 5]), alerted := false, reloaded := true } ∧
    handleImport (some (Json.numVal 7)) (some (Json.arrVal [])) =
      { stored := some (Json.arrVal []), alerted := true, reloaded := false } :=
  ⟨(import_validation_spec (some (Json.arrVal [Json.numVal 5])) none).1 [Json.numVal 5] rfl,
   (import_validation_spec (some (Json.numVal 7)) (some (Json.arrVal []))).2
     (fun items h => by cases h)⟩

/-- C5 counterexample: a session list that is not ordered by
`updatedAt` descending (reachable, since message appends bump
`updatedAt` without reordering) does not round-trip identically —
the reload sorts it, so the ids come back in a different order. -/
theorem import_reorders_sessions_cex :
    (importRoundTrip [cexOldSession, cexNewSession] 99).map (fun s => s.id) = ["new", "old"] ∧
    [cexOldSession, cexNewSession].map (fun s => s.id) = ["old", "new"] ∧
    (["new", "old"] : List String) ≠ ["old", "new"] :=
  ⟨rfl, rfl, by decide⟩

/-- C5 amended: for a nonempty session list already ordered by
`updatedAt` descending, exporting and importing the exact payload (and
the reload import performs) reproduces the identical session list —
same ids in the same order, every message and text unchanged. -/
theorem export_import_roundTrip_sorted (sessions : List ChatSession) (now : Nat)
    (hne : sessions ≠ [])
    (hsorted : sessions.Pairwise (fun a b => b.updatedAt ≤ a.updatedAt)) :
    importRoundTrip sessions now = sessions := by
  unfold importRoundTrip loadSessions
  rw [sortByUpdatedAtDesc_of_sorted sessions hsorted]
  cases sessions with
  | nil => exact absurd rfl hne
  | cons a l => rfl

/-- C5 witness: the round trip is the identity on a concrete sorted
list. -/
theorem export_import_roundTrip_sorted_witness :
    importRoundTrip [{ id := "a", title := "x", messages := [], updatedAt := 5 },
                     { id := "b", title := "y", messages := [], updatedAt := 3 }] 99 =
      [{ id := "a", title := "x", messages := [], updatedAt := 5 },
       { id := "b", title := "y", messages := [], updatedAt := 3 }] :=
  export_import_roundTrip_sorted _ 99 (by decide) (by decide)

/-- C6 counterexample: deleting the active session A of the reachable
state `cexDelState` activates the head of the remaining list (session C,
`updatedAt` 9) even though session B (`updatedAt` 11) is the most
recent remaining session — so the next-most-recent session does not
become active. -/
theorem deleteSession_head_not_most_recent_cex :
    (deleteSession cexDelState "A" 99).currentSessionId = some "C" ∧
    (deleteSession cexDelState "A" 99).sessions.map (fun s => (s.id, s.updatedAt)) =
      [("C", 9), ("B", 11)] ∧
    (9 : Nat) < 11 :=
  ⟨rfl, rfl, by decide⟩

/-- C6 amended: `deleteSession(id)` filters the session out and writes
the filtered list to storage synchronously; if the deleted session was
active, the FIRST remaining session in stored order becomes active (the
most recent one only when the list is ordered by `updatedAt`
descending), and when none remain exactly one fresh, empty,
default-titled session is created and becomes active; a non-active
deletion leaves the active pointer alone. -/
theorem deleteSession_spec (st : AppState) (id : String) (now : Nat) :
    (deleteSession st id now).stored = st.sessions.filter (fun s => decide (s.id ≠ id)) ∧
    (st.currentSessionId = some id →
      ∀ first rest, st.sessions.filter (fun s => decide (s.id ≠ id)) = first :: rest →
        (deleteSession st id now).sessions = first :: rest ∧
        (deleteSession st id now).currentSessionId = some first.id) ∧
    (st.currentSessionId = some id →
      st.sessions.filter (fun s => decide (s.id ≠ id)) = [] →
        (deleteSession st id now).sessions = [newChatSession now] ∧
        (deleteSession st id now).currentSessionId = some (newChatSession now).id ∧
        (newChatSession now).messages = [] ∧ (newChatSession now).title = defaultTitle) ∧
    (st.currentSessionId ≠ some id →
      (deleteSession st id now).sessions = st.sessions.filter (fun s => decide (s.id ≠ id)) ∧
      (deleteSession st id now).currentSessionId = st.currentSessionId) := by
  refine ⟨?_, ?_, ?_, ?_⟩
  · unfold deleteSession
    by_cases h : st.currentSessionId = some id
    · rw [if_pos h]
      cases hf : st.sessions.filter (fun s => decide (s.id ≠ id)) with
      | nil => rfl
      | cons a l => rfl
    · rw [if_neg h]
  · intro h first rest hf
    unfold deleteSession
    rw [if_pos h, hf]
    exact ⟨rfl, rfl⟩
  · intro h hf
    unfold deleteSession
    rw [if_pos h, hf]
    exact ⟨rfl, rfl, rfl, rfl⟩
  · intro h
    unfold deleteSession
    rw [if_neg h]
    exact ⟨rfl, rfl⟩

/-- C6 witness: applied to the concrete state, deleting the active
session picks the head of the remaining list and persists the filtered
list. -/
theorem deleteSession_spec_witness :
    (deleteSession cexDelState "A" 99).stored =
      cexDelState.sessions.filter (fun s => decide (s.id ≠ "A")) ∧
    (deleteSession cexDelState "A" 99).sessions =
      [{ id := "C", title := "c", messages := [], updatedAt := 9 },
       { id := "B", title := "b", messages := [], updatedAt := 11 }] ∧
    (deleteSession cexDelState "A" 99).currentSessionId = some "C" := by
  have h := deleteSession_spec cexDelState "A" 99
  have h2 := h.2.1 rfl
    { id := "C", title := "c", messages := [], updatedAt := 9 }
    [{ id := "B", title := "b", messages := [], updatedAt := 11 }] (by decide)
  exact ⟨h.1, h2.1, h2.2⟩

theorem updateCurrentMessages_some (st : AppState) (sid : String)
    (newMessages : List Message) (now : Nat) (hsid : st.currentSessionId = some sid) :
    updateCurrentMessages st newMessages now =
      { st with sessions := mapCurrentSessions st.sessions sid (fun s =>
          { s with messages := newMessages, title := deriveNewTitle s newMessages,
                   updatedAt := now }) } := by
  unfold updateCurrentMessages
  rw [hsid]

/-- C4 counterexample: on a fresh default-titled session, appending a
hidden user message followed by a visible one derives the title from
the HIDDEN first user message, not from the first non-hidden one. -/
theorem title_derivation_hidden_cex :
    (currentSession (updateCurrentMessages freshState hiddenFirst 50)).map (fun s => s.title) =
      some "hidden question" ∧
    ("hidden question" : String) ≠ "visible question" :=
  ⟨rfl, by decide⟩

/-- C4 amended: when messages are appended to a zero-message session
whose title is still the default placeholder, the new title is derived
from the first user message regardless of its hidden flag — the first 30
characters plus an ellipsis marker when the text is longer than 30
characters, the text unchanged otherwise. -/
theorem title_derivation_first_user_msg (st : AppState) (sid : String) (s0 : ChatSession)
    (newMessages : List Message) (fm : Message) (now : Nat)
    (hsid : st.currentSessionId = some sid)
    (hfind : st.sessions.find? (fun s => decide (s.id = sid)) = some s0)
    (hempty : s0.messages = [])
    (htitle : s0.title = defaultTitle)
    (hfm : newMessages.find? (fun m => decide (m.role = Role.user)) = some fm) :
    (currentSession (updateCurrentMessages st newMessages now)).map (fun s => s.title) =
      some (if fm.text.length > 30 then strSlice fm.text 30 ++ "..." else fm.text) := by
  have hne : 0 < newMessages.length := by
    have hmem := List.mem_of_find?_eq_some hfm
    cases newMessages with
    | nil => cases hmem
    | cons a l => simp
  rw [updateCurrentMessages_some st sid newMessages now hsid]
  have hcur : currentSession
      { st with sessions := mapCurrentSessions st.sessions sid (fun s =>
          { s with messages := newMessages, title := deriveNewTitle s newMessages,
                   updatedAt := now }) } =
      some { s0 with messages := newMessages, title := deriveNewTitle s0 newMessages,
                     updatedAt := now } := by
    unfold currentSession
    simp only [hsid]
    exact find?_mapCurrentSessions_some st.sessions sid
      (fun s => { s with messages := newMessages, title := deriveNewTitle s newMessages,
                         updatedAt := now })
      (fun s => rfl) s0 hfind
  rw [hcur]
  have hderive : deriveNewTitle s0 newMessages =
      strSlice fm.text 30 ++ (if fm.text.length > 30 then "..." else "") := by
    unfold deriveNewTitle
    rw [if_pos ⟨by rw [hempty]; rfl, hne, by rw [htitle]; decide⟩, hfm]
  by_cases hlen : fm.text.length > 30
  · simp [Option.map, hderive, hlen]
  · have hs : strSlice fm.text 30 = fm.text := strSlice_of_length_le _ _ (by omega)
    simp [Option.map, hderive, hlen, hs, strAppend_empty]

/-- C4 witness: a 40-character first user message yields the 30-char
prefix plus the marker; the concrete run instantiates the amended
theorem. -/
theorem title_derivation_first_user_msg_witness :
    (currentSession (updateCurrentMessages freshState
        [{ id := "u1", role := Role.user,
           text := "0123456789012345678901234567890123456789" }] 50)).map
      (fun s => s.title) =
      some (if ("0123456789012345678901234567890123456789" : String).length > 30
            then strSlice "0123456789012345678901234567890123456789" 30 ++ "..."
            else "0123456789012345678901234567890123456789") :=
  title_derivation_first_user_msg freshState "s1"
    { id := "s1", title := defaultTitle, messages := [], updatedAt := 0 }
    [{ id := "u1", role := Role.user,
       text := "0123456789012345678901234567890123456789" }]
    { id := "u1", role := Role.user,
      text := "0123456789012345678901234567890123456789" }
    50 rfl rfl rfl rfl rfl

/-- C1: `handleResend(0)` on a session holding `["hello", "reply"]`
does not drop the messages from index 0 onward — the replayed send
appends to the stale render snapshot, so the resulting session holds
the old messages followed by the fresh send, not the fresh send alone
as the claim requires. -/
theorem resend_replays_over_stale_messages :
    (currentMessages (handleResend demoState 0 "u9" "b9" 100
        [StreamEvent.chunk "Re" 100] StreamEnding.complete)).map (fun m => m.text) =
      ["hello", "reply", "hello", "Re"] ∧
    (["hello", "reply", "hello", "Re"] : List String) ≠ ["hello", "Re"] :=
  ⟨rfl, by decide⟩

theorem foldl_all {α β : Type} (f : α → β → α) (P : α → Prop) (init : α) (l : List β)
    (h0 : P init) (hstep : ∀ a b, P a → P (f a b)) : P (l.foldl f init) := by
  induction l generalizing init with
  | nil => exact h0
  | cons b rest ih => exact ih (f init b) (hstep init b h0)

theorem scanl_all {α β : Type} (f : α → β → α) (P : α → Prop) (init : α) (l : List β)
    (h0 : P init) (hstep : ∀ a b, P a → P (f a b)) :
    ∀ x ∈ List.scanl f init l, P x := by
  induction l generalizing init with
  | nil =>
      intro x hx
      rw [List.scanl_nil] at hx
      rcases List.mem_cons.mp hx with rfl | hx
      · exact h0
      · cases hx
  | cons b rest ih =>
      intro x hx
      rw [List.scanl_cons] at hx
      rcases List.mem_cons.mp hx with rfl | hx
      · exact h0
      · exact ih (f init b) (hstep init b h0) x hx

theorem countStreaming_append (a b : List Message) :
    countStreaming (a ++ b) = countStreaming a + countStreaming b :=
  List.countP_append _ a b

theorem countStreaming_map_le (ms : List Message) (f : Message → Message)
    (h : ∀ m, (f m).isStreaming = true → m.isStreaming = true) :
    countStreaming (ms.map f) ≤ countStreaming ms := by
  unfold countStreaming
  rw [List.countP_map]
  exact List.countP_mono_left (fun m _ hp => h m hp)

theorem msgIds_map_patch (ms : List Message) (f : Message → Message)
    (hid : ∀ m, (f m).id = m.id) :
    (ms.map f).map (fun m => m.id) = ms.map (fun m => m.id) := by
  rw [List.map_map]
  exact List.map_congr_left (fun m _ => hid m)

theorem shape_mapCurrentSessions (sessions : List ChatSession) (sid' sidKey : String)
    (g : ChatSession → ChatSession) (hg : ∀ s, (g s).id = s.id)
    (hmsg : ∀ s, (g s).messages.map (fun m => m.id) = s.messages.map (fun m => m.id))
    (s0 : ChatSession) (hfind : sessions.find? (fun s => decide (s.id = sidKey)) = some s0) :
    ∃ s1, (mapCurrentSessions sessions sid' g).find? (fun s => decide (s.id = sidKey))
            = some s1 ∧
          s1.messages.map (fun m => m.id) = s0.messages.map (fun m => m.id) := by
  rw [find?_mapCurrentSessions sessions sidKey sid' g hg, hfind]
  by_cases h : s0.id = sid'
  · exact ⟨g s0, by simp [Option.map, h], hmsg s0⟩
  · exact ⟨s0, by simp [Option.map, h], rfl⟩

theorem handleStop_fields (st : AppState) :
    (handleStop st).currentSessionId = st.currentSessionId ∧
    (handleStop st).selectedModel = st.selectedModel ∧
    (handleStop st).userSettings = st.userSettings ∧
    (handleStop st).stopGeneration = true := by
  unfold handleStop
  cases h : st.currentSessionId <;> simp [h]

theorem patchBotMessage_fields (st : AppState) (sid : Option String) (b : String)
    (f : Message → Message) :
    (patchBotMessage st sid b f).currentSessionId = st.currentSessionId ∧
    (patchBotMessage st sid b f).selectedModel = st.selectedModel ∧
    (patchBotMessage st sid b f).userSettings = st.userSettings ∧
    (patchBotMessage st sid b f).stopGeneration = st.stopGeneration ∧
    (patchBotMessage st sid b f).isLoading = st.isLoading := by
  cases sid <;> simp [patchBotMessage]

theorem streamStep_selectedModel (sid : Option String) (b : String) (rs : RunState)
    (ev : StreamEvent) :
    ((streamStep sid b rs ev).app.selectedModel = rs.app.selectedModel) := by
  unfold streamStep
  by_cases hb : rs.broke
  · simp [hb]
  · cases ev with
    | stopClick => simp [hb, (handleStop_fields rs.app).2.1]
    | chunk t tNow =>
        by_cases hf : rs.app.stopGeneration <;>
          by_cases ht : tNow - rs.lastUpdateTime > 50 <;>
            simp [hb, hf, ht, (patchBotMessage_fields rs.app sid b _).2.1]


theorem shape_handleStop (st : AppState) (sidKey : String) (s0 : ChatSession)
    (hfind : st.sessions.find? (fun s => decide (s.id = sidKey)) = some s0) :
    ∃ s1, (handleStop st).sessions.find? (fun s => decide (s.id = sidKey)) = some s1 ∧
          s1.messages.map (fun m => m.id) = s0.messages.map (fun m => m.id) := by
  unfold handleStop
  cases hc : st.currentSessionId with
  | none => exact ⟨s0, hfind, rfl⟩
  | some sid0 =>
      simp only [hc]
      exact shape_mapCurrentSessions st.sessions sid0 sidKey
        (fun s => { s with messages := s.messages.map (fun m =>
            if m.isStreaming then { m with isStreaming := false, text := m.text ++ "..." }
            else m) })
        (fun s => rfl)
        (fun s => msgIds_map_patch s.messages
          (fun m => if m.isStreaming then { m with isStreaming := false, text := m.text ++ "..." }
                    else m)
          (fun m => by by_cases hm : m.isStreaming <;> simp [hm]))
        s0 hfind

theorem shape_patchBotMessage (st : AppState) (sid : Option String) (b : String)
    (f : Message → Message) (hf : ∀ m, (f m).id = m.id) (sidKey : String) (s0 : ChatSession)
    (hfind : st.sessions.find? (fun s => decide (s.id = sidKey)) = some s0) :
    ∃ s1, (patchBotMessage st sid b f).sessions.find? (fun s => decide (s.id = sidKey))
            = some s1 ∧
          s1.messages.map (fun m => m.id) = s0.messages.map (fun m => m.id) := by
  cases sid with
  | none => exact ⟨s0, hfind, rfl⟩
  | some sid0 =>
      exact shape_mapCurrentSessions st.sessions sid0 sidKey
        (fun s => { s with messages := s.messages.map (fun m => if m.id = b then f m else m) })
        (fun s => rfl)
        (fun s => msgIds_map_patch s.messages (fun m => if m.id = b then f m else m)
          (fun m => by by_cases hm : m.id = b <;> simp [hm, hf m]))
        s0 hfind

theorem shape_streamStep (sid : Option String) (b : String) (sidKey : String)
    (L : List String) (rs : RunState) (ev : StreamEvent)
    (h : ∃ s, rs.app.sessions.find? (fun s => decide (s.id = sidKey)) = some s ∧
              s.messages.map (fun m => m.id) = L) :
    ∃ s, (streamStep sid b rs ev).app.sessions.find? (fun s => decide (s.id = sidKey))
           = some s ∧
         s.messages.map (fun m => m.id) = L := by
  obtain ⟨s0, hfind, hL⟩ := h
  unfold streamStep
  by_cases hb : rs.broke
  · exact ⟨s0, by simp [hb, hfind], hL⟩
  · cases ev with
    | stopClick =>
        simp only [hb, if_neg, Bool.false_eq_true, if_false]
        obtain ⟨s1, hfind1, hL1⟩ := shape_handleStop rs.app sidKey s0 hfind
        exact ⟨s1, by simpa [hb] using hfind1, hL1.trans hL⟩
    | chunk t tNow =>
        by_cases hf : rs.app.stopGeneration
        · exact ⟨s0, by simp [hb, hf, hfind], hL⟩
        · by_cases ht : tNow - rs.lastUpdateTime > 50
          · obtain ⟨s1, hfind1, hL1⟩ := shape_patchBotMessage rs.app sid b
              (fun m => { m with text := rs.fullText ++ t }) (fun m => rfl) sidKey s0 hfind
            exact ⟨s1, by simpa [hb, hf, ht] using hfind1, hL1.trans hL⟩
          · exact ⟨s0, by simp [hb, hf, ht, hfind], hL⟩

theorem updateCurrentMessages_fields (st : AppState) (ms : List Message) (now : Nat) :
    (updateCurrentMessages st ms now).currentSessionId = st.currentSessionId ∧
    (updateCurrentMessages st ms now).selectedModel = st.selectedModel ∧
    (updateCurrentMessages st ms now).userSettings = st.userSettings ∧
    (updateCurrentMessages st ms now).stopGeneration = st.stopGeneration := by
  unfold updateCurrentMessages
  cases h : st.currentSessionId <;> simp [h]

theorem updateCurrentMessages_find (st : AppState) (sid : String) (s0 : ChatSession)
    (ms : List Message) (now : Nat)
    (hsid : st.currentSessionId = some sid)
    (hfind : st.sessions.find? (fun s => decide (s.id = sid)) = some s0) :
    (updateCurrentMessages st ms now).sessions.find? (fun s => decide (s.id = sid)) =
      some { s0 with messages := ms, title := deriveNewTitle s0 ms, updatedAt := now } := by
  rw [updateCurrentMessages_some st sid ms now hsid]
  exact find?_mapCurrentSessions_some st.sessions sid
    (fun s => { s with messages := ms, title := deriveNewTitle s ms, updatedAt := now })
    (fun s => rfl) s0 hfind

theorem foldl_broke_stays (sid : Option String) (b : String) (events : List StreamEvent)
    (rs0 : RunState) (hb : rs0.broke = true) :
    events.foldl (streamStep sid b) rs0 = rs0 := by
  induction events with
  | nil => rfl
  | cons ev rest ih =>
      rw [List.foldl_cons]
      have hstep : streamStep sid b rs0 ev = rs0 := by
        unfold streamStep
        rw [if_pos hb]
      rw [hstep]
      exact ih


theorem chunksTextFrom_cons_chunk (acc t : String) (tNow : Nat) (rest : List StreamEvent) :
    chunksTextFrom acc (StreamEvent.chunk t tNow :: rest) = chunksTextFrom (acc ++ t) rest := rfl

theorem chunksTextFrom_cons_stop (acc : String) (rest : List StreamEvent) :
    chunksTextFrom acc (StreamEvent.stopClick :: rest) = chunksTextFrom acc rest := rfl

theorem foldl_no_stop (sid : Option String) (b : String) (events : List StreamEvent)
    (rs0 : RunState)
    (hnostop : ∀ ev ∈ events, ev ≠ StreamEvent.stopClick)
    (hflag : rs0.app.stopGeneration = false) (hbroke : rs0.broke = false) :
    (events.foldl (streamStep sid b) rs0).fullText = chunksTextFrom rs0.fullText events ∧
    (events.foldl (streamStep sid b) rs0).broke = false ∧
    (events.foldl (streamStep sid b) rs0).app.stopGeneration = false := by
  induction events generalizing rs0 with
  | nil => exact ⟨rfl, hbroke, hflag⟩
  | cons ev rest ih =>
      cases ev with
      | stopClick => exact absurd rfl (hnostop _ (by simp))
      | chunk t tNow =>
          have hrest : ∀ ev ∈ rest, ev ≠ StreamEvent.stopClick :=
            fun ev hev => hnostop ev (by simp [hev])
          rw [List.foldl_cons, chunksTextFrom_cons_chunk]
          by_cases ht : tNow - rs0.lastUpdateTime > 50
          · have hstep : streamStep sid b rs0 (StreamEvent.chunk t tNow) =
                { rs0 with fullText := rs0.fullText ++ t, lastUpdateTime := tNow,
                           app := patchBotMessage rs0.app sid b
                                    (fun m => { m with text := rs0.fullText ++ t }) } := by
              unfold streamStep
              rw [if_neg (by simp [hbroke]), hflag]
              simp [ht]
            rw [hstep]
            exact ih _ hrest
              ((patchBotMessage_fields rs0.app sid b _).2.2.2.1.trans hflag) hbroke
          · have hstep : streamStep sid b rs0 (StreamEvent.chunk t tNow) =
                { rs0 with fullText := rs0.fullText ++ t } := by
              unfold streamStep
              rw [if_neg (by simp [hbroke]), hflag]
              simp [ht]
            rw [hstep]
            exact ih _ hrest hflag hbroke

theorem foldl_flag_up (sid : Option String) (b : String) (events : List StreamEvent)
    (rs0 : RunState) (hflag : rs0.app.stopGeneration = true) :
    (events.foldl (streamStep sid b) rs0).fullText = rs0.fullText ∧
    (events.foldl (streamStep sid b) rs0).app.stopGeneration = true := by
  induction events generalizing rs0 with
  | nil => exact ⟨rfl, hflag⟩
  | cons ev rest ih =>
      rw [List.foldl_cons]
      by_cases hb : rs0.broke = true
      · have hstep : streamStep sid b rs0 ev = rs0 := by
          unfold streamStep
          rw [if_pos hb]
        rw [hstep]
        exact ih rs0 hflag
      · cases ev with
        | stopClick =>
            have hstep : streamStep sid b rs0 StreamEvent.stopClick =
                { rs0 with app := handleStop rs0.app } := by
              unfold streamStep
              rw [if_neg hb]
            rw [hstep]
            exact ih _ ((handleStop_fields rs0.app).2.2.2)
        | chunk t tNow =>
            have hstep : streamStep sid b rs0 (StreamEvent.chunk t tNow) =
                { rs0 with broke := true } := by
              unfold streamStep
              rw [if_neg hb, hflag]
              simp
            rw [hstep]
            exact ih _ hflag

theorem foldl_broke_of_chunk (sid : Option String) (b : String) (events : List StreamEvent)
    (rs0 : RunState) (hflag : rs0.app.stopGeneration = true)
    (hch : ∃ t n, StreamEvent.chunk t n ∈ events) :
    (events.foldl (streamStep sid b) rs0).broke = true := by
  induction events generalizing rs0 with
  | nil =>
      obtain ⟨t, n, h⟩ := hch
      cases h
  | cons ev rest ih =>
      rw [List.foldl_cons]
      by_cases hb : rs0.broke = true
      · have hstep : streamStep sid b rs0 ev = rs0 := by
          unfold streamStep
          rw [if_pos hb]
        rw [hstep, foldl_broke_stays sid b rest rs0 hb]
        exact hb
      · cases ev with
        | chunk t tNow =>
            have hstep : streamStep sid b rs0 (StreamEvent.chunk t tNow) =
                { rs0 with broke := true } := by
              unfold streamStep
              rw [if_neg hb, hflag]
              simp
            rw [hstep, foldl_broke_stays sid b rest _ rfl]
        | stopClick =>
            have hstep : streamStep sid b rs0 StreamEvent.stopClick =
                { rs0 with app := handleStop rs0.app } := by
              unfold streamStep
              rw [if_neg hb]
            rw [hstep]
            apply ih
            · exact (handleStop_fields rs0.app).2.2.2
            · obtain ⟨t, n, h⟩ := hch
              rcases List.mem_cons.mp h with h' | h'
              · cases h'
              · exact ⟨t, n, h'⟩

theorem countId_patched (ms : List Message) (b : String) (f : Message → Message)
    (hf : ∀ m, (f m).id = m.id) :
    List.countP (fun m => decide (m.id = b)) (ms.map (fun m => if m.id = b then f m else m)) =
      List.countP (fun m => decide (m.id = b)) ms := by
  rw [List.countP_map]
  apply List.countP_congr
  intro m _
  by_cases hm : m.id = b <;> simp [Function.comp, hm, hf m]

theorem countId_of_ids (ms : List Message) (b : String) :
    List.countP (fun m => decide (m.id = b)) ms =
      List.countP (fun x => decide (x = b)) (ms.map (fun m => m.id)) := by
  rw [List.countP_map]
  rfl

theorem countId_eq_of_ids (ms1 ms2 : List Message) (b : String)
    (h : ms1.map (fun m => m.id) = ms2.map (fun m => m.id)) :
    List.countP (fun m => decide (m.id = b)) ms1 =
      List.countP (fun m => decide (m.id = b)) ms2 := by
  rw [countId_of_ids ms1 b, countId_of_ids ms2 b, h]

theorem countId_send_list (snapshot : List Message) (u bmsg : Message) (b : String)
    (hsnap : ∀ m ∈ snapshot, m.id ≠ b) (hu : u.id ≠ b) (hb : bmsg.id = b) :
    List.countP (fun m => decide (m.id = b)) (snapshot ++ [u] ++ [bmsg]) = 1 := by
  rw [List.countP_append, List.countP_append]
  have h1 : List.countP (fun m => decide (m.id = b)) snapshot = 0 :=
    List.countP_eq_zero.mpr (fun m hm => by simp [hsnap m hm])
  simp [h1, List.countP_cons, hu, hb]

theorem patched_mem (ms : List Message) (b : String) (f : Message → Message) :
    ∀ m ∈ ms.map (fun m => if m.id = b then f m else m), m.id = b →
      ∃ m0, m = f m0 := by
  intro m hm hid
  obtain ⟨m0, hm0, rfl⟩ := List.mem_map.mp hm
  by_cases h0 : m0.id = b
  · exact ⟨m0, by rw [if_pos h0]⟩
  · rw [if_neg h0] at hid
    exact absurd hid h0

theorem applySendFailure_quota (app : AppState) (sidOpt : Option String) (sid : String)
    (b : String) (selModel : GeminiModelId) (em : Option String) (sF : ChatSession)
    (hq : isQuotaError em = true)
    (hs : sidOpt = some sid)
    (hm : selModel = GeminiModelId.gemini3ProPreview)
    (hfind : app.sessions.find? (fun s => decide (s.id = sid)) = some sF) :
    (applySendFailure app sidOpt b selModel em).selectedModel
      = GeminiModelId.gemini25Flash ∧
    (applySendFailure app sidOpt b selModel em).sessions.find?
        (fun s => decide (s.id = sid)) =
      some { sF with messages := sF.messages.map (fun m =>
        if m.id = b then { m with text := quotaNotice, error := true, isStreaming := false }
        else m) } := by
  subst hs
  subst hm
  unfold applySendFailure
  rw [if_pos ⟨hq, rfl⟩]
  constructor
  · exact (patchBotMessage_fields _ _ _ _).2.1
  · unfold patchBotMessage
    exact find?_mapCurrentSessions_some app.sessions sid
      (fun s => { s with messages := s.messages.map (fun m =>
          if m.id = b
          then { m with text := quotaNotice, error := true, isStreaming := false }
          else m) })
      (fun s => rfl) sF hfind

theorem applySendFailure_generic (app : AppState) (sidOpt : Option String) (sid : String)
    (b : String) (selModel : GeminiModelId) (em : Option String) (sF : ChatSession)
    (hng : ¬(isQuotaError em = true ∧ selModel = GeminiModelId.gemini3ProPreview))
    (hs : sidOpt = some sid)
    (hfind : app.sessions.find? (fun s => decide (s.id = sid)) = some sF) :
    (applySendFailure app sidOpt b selModel em).selectedModel = app.selectedModel ∧
    (applySendFailure app sidOpt b selModel em).sessions.find?
        (fun s => decide (s.id = sid)) =
      some { sF with messages := sF.messages.map (fun m =>
        if m.id = b
        then { m with text := m.text ++ connectionSuffix em, error := true, isStreaming := false }
        else m) } := by
  subst hs
  unfold applySendFailure
  rw [if_neg hng]
  constructor
  · exact (patchBotMessage_fields _ _ _ _).2.1
  · unfold patchBotMessage
    exact find?_mapCurrentSessions_some app.sessions sid
      (fun s => { s with messages := s.messages.map (fun m =>
          if m.id = b
          then { m with text := m.text ++ connectionSuffix em, error := true,
                        isStreaming := false }
          else m) })
      (fun s => rfl) sF hfind

theorem finalFlush_find (app : AppState) (sidOpt : Option String) (sid : String)
    (b : String) (fullText : String) (sF : ChatSession)
    (hs : sidOpt = some sid)
    (hfind : app.sessions.find? (fun s => decide (s.id = sid)) = some sF) :
    (finalFlush app sidOpt b fullText).sessions.find?
        (fun s => decide (s.id = sid)) =
      some { sF with messages := sF.messages.map (fun m =>
        if m.id = b then { m with text := fullText, isStreaming := false } else m) } := by
  subst hs
  unfold finalFlush patchBotMessage
  exact find?_mapCurrentSessions_some app.sessions sid
    (fun s => { s with messages := s.messages.map (fun m =>
        if m.id = b then { m with text := fullText, isStreaming := false } else m) })
    (fun s => rfl) sF hfind

theorem runHandleSend_unfold (st : AppState) (settings : UserSettings)
    (snapshot : List Message) (text : String) (p : AttachmentsParam)
    (userMsgId botMsgId : String) (now : Nat) (events : List StreamEvent)
    (ending : StreamEnding)
    (hset : st.userSettings = some settings) (hkey : settings.apiKey ≠ "") :
    runHandleSend st snapshot text p userMsgId botMsgId now events ending =
      (if (events.foldl (streamStep st.currentSessionId botMsgId)
            { app := updateCurrentMessages
                { updateCurrentMessages { st with stopGeneration := false }
                    (snapshot ++ [mkUserMessage userMsgId text p st.selectedModel]) now
                  with isLoading := true }
                ((snapshot ++ [mkUserMessage userMsgId text p st.selectedModel])
                  ++ [mkBotMessage botMsgId st.selectedModel]) now,
              fullText := "", lastUpdateTime := 0, broke := false }).broke then
        { finalFlush (events.foldl (streamStep st.currentSessionId botMsgId)
            { app := updateCurrentMessages
                { updateCurrentMessages { st with stopGeneration := false }
                    (snapshot ++ [mkUserMessage userMsgId text p st.selectedModel]) now
                  with isLoading := true }
                ((snapshot ++ [mkUserMessage userMsgId text p st.selectedModel])
                  ++ [mkBotMessage botMsgId st.selectedModel]) now,
              fullText := "", lastUpdateTime := 0, broke := false }).app
            st.currentSessionId botMsgId
            (events.foldl (streamStep st.currentSessionId botMsgId)
              { app := updateCurrentMessages
                  { updateCurrentMessages { st with stopGeneration := false }
                      (snapshot ++ [mkUserMessage userMsgId text p st.selectedModel]) now
                    with isLoading := true }
                  ((snapshot ++ [mkUserMessage userMsgId text p st.selectedModel])
                    ++ [mkBotMessage botMsgId st.selectedModel]) now,
                fullText := "", lastUpdateTime := 0, broke := false }).fullText
          with isLoading := false }
      else
        match ending with
        | StreamEnding.complete =>
            { finalFlush (events.foldl (streamStep st.currentSessionId botMsgId)
                { app := updateCurrentMessages
                    { updateCurrentMessages { st with stopGeneration := false }
                        (snapshot ++ [mkUserMessage userMsgId text p st.selectedModel]) now
                      with isLoading := true }
                    ((snapshot ++ [mkUserMessage userMsgId text p st.selectedModel])
                      ++ [mkBotMessage botMsgId st.selectedModel]) now,
                  fullText := "", lastUpdateTime := 0, broke := false }).app
                st.currentSessionId botMsgId
                (events.foldl (streamStep st.currentSessionId botMsgId)
                  { app := updateCurrentMessages
                      { updateCurrentMessages { st with stopGeneration := false }
                          (snapshot ++ [mkUserMessage userMsgId text p st.selectedModel]) now
                        with isLoading := true }
                      ((snapshot ++ [mkUserMessage userMsgId text p st.selectedModel])
                        ++ [mkBotMessage botMsgId st.selectedModel]) now,
                    fullText := "", lastUpdateTime := 0, broke := false }).fullText
              with isLoading := false }
        | StreamEnding.hang =>
            (events.foldl (streamStep st.currentSessionId botMsgId)
              { app := updateCurrentMessages
                  { updateCurrentMessages { st with stopGeneration := false }
                      (snapshot ++ [mkUserMessage userMsgId text p st.selectedModel]) now
                    with isLoading := true }
                  ((snapshot ++ [mkUserMessage userMsgId text p st.selectedModel])
                    ++ [mkBotMessage botMsgId st.selectedModel]) now,
                fullText := "", lastUpdateTime := 0, broke := false }).app
        | StreamEnding.fail message =>
            { applySendFailure (events.foldl (streamStep st.currentSessionId botMsgId)
                { app := updateCurrentMessages
                    { updateCurrentMessages { st with stopGeneration := false }
                        (snapshot ++ [mkUserMessage userMsgId text p st.selectedModel]) now
                      with isLoading := true }
                    ((snapshot ++ [mkUserMessage userMsgId text p st.selectedModel])
                      ++ [mkBotMessage botMsgId st.selectedModel]) now,
                  fullText := "", lastUpdateTime := 0, broke := false }).app
                st.currentSessionId botMsgId st.selectedModel message
              with isLoading := false }) := by
  unfold runHandleSend
  rw [hset]
  exact if_neg hkey

theorem runHandleSend_fail_eq (st : AppState) (settings : UserSettings)
    (snapshot : List Message) (text : String) (p : AttachmentsParam)
    (userMsgId botMsgId : String) (now : Nat) (events : List StreamEvent)
    (em : Option String)
    (hset : st.userSettings = some settings) (hkey : settings.apiKey ≠ "")
    (hbroke : (events.foldl (streamStep st.currentSessionId botMsgId)
        { app := updateCurrentMessages
            { updateCurrentMessages { st with stopGeneration := false }
                (snapshot ++ [mkUserMessage userMsgId text p st.selectedModel]) now
              with isLoading := true }
            ((snapshot ++ [mkUserMessage userMsgId text p st.selectedModel])
              ++ [mkBotMessage botMsgId st.selectedModel]) now,
          fullText := "", lastUpdateTime := 0, broke := false }).broke = false) :
    runHandleSend st snapshot text p userMsgId botMsgId now events (StreamEnding.fail em) =
      { applySendFailure (events.foldl (streamStep st.currentSessionId botMsgId)
          { app := updateCurrentMessages
              { updateCurrentMessages { st with stopGeneration := false }
                  (snapshot ++ [mkUserMessage userMsgId text p st.selectedModel]) now
                with isLoading := true }
              ((snapshot ++ [mkUserMessage userMsgId text p st.selectedModel])
                ++ [mkBotMessage botMsgId st.selectedModel]) now,
            fullText := "", lastUpdateTime := 0, broke := false }).app
          st.currentSessionId botMsgId st.selectedModel em
        with isLoading := false } := by
  rw [runHandleSend_unfold st settings snapshot text p userMsgId botMsgId now events
      (StreamEnding.fail em) hset hkey, hbroke]
  simp

theorem runHandleSend_broke_eq (st : AppState) (settings : UserSettings)
    (snapshot : List Message) (text : String) (p : AttachmentsParam)
    (userMsgId botMsgId : String) (now : Nat) (events : List StreamEvent)
    (ending : StreamEnding)
    (hset : st.userSettings = some settings) (hkey : settings.apiKey ≠ "")
    (hbroke : (events.foldl (streamStep st.currentSessionId botMsgId)
        { app := updateCurrentMessages
            { updateCurrentMessages { st with stopGeneration := false }
                (snapshot ++ [mkUserMessage userMsgId text p st.selectedModel]) now
              with isLoading := true }
            ((snapshot ++ [mkUserMessage userMsgId text p st.selectedModel])
              ++ [mkBotMessage botMsgId st.selectedModel]) now,
          fullText := "", lastUpdateTime := 0, broke := false }).broke = true) :
    runHandleSend st snapshot text p userMsgId botMsgId now events ending =
      { finalFlush (events.foldl (streamStep st.currentSessionId botMsgId)
          { app := updateCurrentMessages
              { updateCurrentMessages { st with stopGeneration := false }
                  (snapshot ++ [mkUserMessage userMsgId text p st.selectedModel]) now
                with isLoading := true }
              ((snapshot ++ [mkUserMessage userMsgId text p st.selectedModel])
                ++ [mkBotMessage botMsgId st.selectedModel]) now,
            fullText := "", lastUpdateTime := 0, broke := false }).app
          st.currentSessionId botMsgId
          (events.foldl (streamStep st.currentSessionId botMsgId)
            { app := updateCurrentMessages
                { updateCurrentMessages { st with stopGeneration := false }
                    (snapshot ++ [mkUserMessage userMsgId text p st.selectedModel]) now
                  with isLoading := true }
                ((snapshot ++ [mkUserMessage userMsgId text p st.selectedModel])
                  ++ [mkBotMessage botMsgId st.selectedModel]) now,
              fullText := "", lastUpdateTime := 0, broke := false }).fullText
        with isLoading := false } := by
  rw [runHandleSend_unfold st settings snapshot text p userMsgId botMsgId now events
      ending hset hkey, hbroke]
  simp

theorem runHandleSend_complete_eq (st : AppState) (settings : UserSettings)
    (snapshot : List Message) (text : String) (p : AttachmentsParam)
    (userMsgId botMsgId : String) (now : Nat) (events : List StreamEvent)
    (hset : st.userSettings = some settings) (hkey : settings.apiKey ≠ "") :
    runHandleSend st snapshot text p userMsgId botMsgId now events StreamEnding.complete =
      { finalFlush (events.foldl (streamStep st.currentSessionId botMsgId)
          { app := updateCurrentMessages
              { updateCurrentMessages { st with stopGeneration := false }
                  (snapshot ++ [mkUserMessage userMsgId text p st.selectedModel]) now
                with isLoading := true }
              ((snapshot ++ [mkUserMessage userMsgId text p st.selectedModel])
                ++ [mkBotMessage botMsgId st.selectedModel]) now,
            fullText := "", lastUpdateTime := 0, broke := false }).app
          st.currentSessionId botMsgId
          (events.foldl (streamStep st.currentSessionId botMsgId)
            { app := updateCurrentMessages
                { updateCurrentMessages { st with stopGeneration := false }
                    (snapshot ++ [mkUserMessage userMsgId text p st.selectedModel]) now
                  with isLoading := true }
                ((snapshot ++ [mkUserMessage userMsgId text p st.selectedModel])
                  ++ [mkBotMessage botMsgId st.selectedModel]) now,
              fullText := "", lastUpdateTime := 0, broke := false }).fullText
        with isLoading := false } := by
  rw [runHandleSend_unfold st settings snapshot text p userMsgId botMsgId now events
      StreamEnding.complete hset hkey]
  exact ite_self _

theorem sendPrep_fields (a : AppState) (l1 l2 : List Message) (n1 n2 : Nat) (il : Bool) :
    (updateCurrentMessages { updateCurrentMessages a l1 n1 with isLoading := il }
        l2 n2).selectedModel = a.selectedModel ∧
    (updateCurrentMessages { updateCurrentMessages a l1 n1 with isLoading := il }
        l2 n2).stopGeneration = a.stopGeneration ∧
    (updateCurrentMessages { updateCurrentMessages a l1 n1 with isLoading := il }
        l2 n2).currentSessionId = a.currentSessionId := by
  have e1 := updateCurrentMessages_fields
    { updateCurrentMessages a l1 n1 with isLoading := il } l2 n2
  have e2 := updateCurrentMessages_fields a l1 n1
  exact ⟨e1.2.1.trans e2.2.1, e1.2.2.2.trans e2.2.2.2, e1.1.trans e2.1⟩

/-- C3: a stream error whose text indicates a rate-limit/quota condition
while the top-tier model is selected switches the model selection to the
fallback model and replaces the placeholder (the unique message carrying
the fresh placeholder id) with the fixed retry notice, `error` set and
`isStreaming` cleared; the same error with a non-top-tier model selected
leaves the model selection unchanged and takes the generic path, which
appends the connection-error suffix instead. -/
theorem quota_fallback_spec
    (st : AppState) (settings : UserSettings) (sid : String) (s0 : ChatSession)
    (snapshot : List Message) (text : String) (p : AttachmentsParam)
    (userMsgId botMsgId : String) (now : Nat) (events : List StreamEvent)
    (em : Option String)
    (hset : st.userSettings = some settings) (hkey : settings.apiKey ≠ "")
    (hsid : st.currentSessionId = some sid)
    (hfind : st.sessions.find? (fun s => decide (s.id = sid)) = some s0)
    (hfreshSnap : ∀ m ∈ snapshot, m.id ≠ botMsgId)
    (hfreshUser : userMsgId ≠ botMsgId)
    (hnostop : ∀ ev ∈ events, ev ≠ StreamEvent.stopClick)
    (hq : isQuotaError em = true) :
    (st.selectedModel = GeminiModelId.gemini3ProPreview →
      (runHandleSend st snapshot text p userMsgId botMsgId now events
          (StreamEnding.fail em)).selectedModel = GeminiModelId.gemini25Flash ∧
      ∃ s1, (runHandleSend st snapshot text p userMsgId botMsgId now events
               (StreamEnding.fail em)).sessions.find? (fun s => decide (s.id = sid))
              = some s1 ∧
            List.countP (fun m => decide (m.id = botMsgId)) s1.messages = 1 ∧
            ∀ m ∈ s1.messages, m.id = botMsgId →
              m.text = quotaNotice ∧ m.error = true ∧ m.isStreaming = false) ∧
    (st.selectedModel ≠ GeminiModelId.gemini3ProPreview →
      (runHandleSend st snapshot text p userMsgId botMsgId now events
          (StreamEnding.fail em)).selectedModel = st.selectedModel ∧
      ∃ s1, (runHandleSend st snapshot text p userMsgId botMsgId now events
               (StreamEnding.fail em)).sessions.find? (fun s => decide (s.id = sid))
              = some s1 ∧
            List.countP (fun m => decide (m.id = botMsgId)) s1.messages = 1 ∧
            ∀ m ∈ s1.messages, m.id = botMsgId →
              (∃ t0, m.text = t0 ++ connectionSuffix em) ∧ m.error = true ∧
              m.isStreaming = false) := by
  have hsid0 : ({ st with stopGeneration := false } : AppState).currentSessionId = some sid :=
    hsid
  have hfind0 : ({ st with stopGeneration := false } : AppState).sessions.find?
      (fun s => decide (s.id = sid)) = some s0 := hfind
  have h1 := updateCurrentMessages_find { st with stopGeneration := false }
      sid s0 (snapshot ++ [mkUserMessage userMsgId text p st.selectedModel]) now hsid0 hfind0
  have hsid1 : ({ updateCurrentMessages { st with stopGeneration := false }
      (snapshot ++ [mkUserMessage userMsgId text p st.selectedModel]) now
      with isLoading := true } : AppState).currentSessionId = some sid :=
    (updateCurrentMessages_fields { st with stopGeneration := false }
      (snapshot ++ [mkUserMessage userMsgId text p st.selectedModel]) now).1.trans hsid0
  have h2 := updateCurrentMessages_find
      { updateCurrentMessages { st with stopGeneration := false }
          (snapshot ++ [mkUserMessage userMsgId text p st.selectedModel]) now
        with isLoading := true }
      sid _
      ((snapshot ++ [mkUserMessage userMsgId text p st.selectedModel])
        ++ [mkBotMessage botMsgId st.selectedModel]) now hsid1 h1
  obtain ⟨sF, hfindF, hidsF⟩ := foldl_all (streamStep st.currentSessionId botMsgId)
      (fun rs => ∃ s, rs.app.sessions.find? (fun s => decide (s.id = sid)) = some s ∧
          s.messages.map (fun m => m.id) =
            ((snapshot ++ [mkUserMessage userMsgId text p st.selectedModel])
              ++ [mkBotMessage botMsgId st.selectedModel]).map (fun m => m.id))
      { app := updateCurrentMessages
          { updateCurrentMessages { st with stopGeneration := false }
              (snapshot ++ [mkUserMessage userMsgId text p st.selectedModel]) now
            with isLoading := true }
          ((snapshot ++ [mkUserMessage userMsgId text p st.selectedModel])
            ++ [mkBotMessage botMsgId st.selectedModel]) now,
        fullText := "", lastUpdateTime := 0, broke := false }
      events ⟨_, h2, rfl⟩
      (fun rs ev h => shape_streamStep st.currentSessionId botMsgId sid _ rs ev h)
  have hsel : (events.foldl (streamStep st.currentSessionId botMsgId)
      { app := updateCurrentMessages
          { updateCurrentMessages { st with stopGeneration := false }
              (snapshot ++ [mkUserMessage userMsgId text p st.selectedModel]) now
            with isLoading := true }
          ((snapshot ++ [mkUserMessage userMsgId text p st.selectedModel])
            ++ [mkBotMessage botMsgId st.selectedModel]) now,
        fullText := "", lastUpdateTime := 0, broke := false }).app.selectedModel
      = st.selectedModel :=
    foldl_all _ (fun rs => rs.app.selectedModel = st.selectedModel) _ events
      ((sendPrep_fields { st with stopGeneration := false }
          (snapshot ++ [mkUserMessage userMsgId text p st.selectedModel])
          ((snapshot ++ [mkUserMessage userMsgId text p st.selectedModel])
            ++ [mkBotMessage botMsgId st.selectedModel]) now now true).1)
      (fun rs ev h => (streamStep_selectedModel _ _ rs ev).trans h)
  have hflag0 : ({ app := updateCurrentMessages
                     { updateCurrentMessages { st with stopGeneration := false }
                         (snapshot ++ [mkUserMessage userMsgId text p st.selectedModel]) now
                       with isLoading := true }
                     ((snapshot ++ [mkUserMessage userMsgId text p st.selectedModel])
                       ++ [mkBotMessage botMsgId st.selectedModel]) now,
                   fullText := "", lastUpdateTime := 0,
                   broke := false } : RunState).app.stopGeneration = false :=
    (sendPrep_fields { st with stopGeneration := false }
      (snapshot ++ [mkUserMessage userMsgId text p st.selectedModel])
      ((snapshot ++ [mkUserMessage userMsgId text p st.selectedModel])
        ++ [mkBotMessage botMsgId st.selectedModel]) now now true).2.1
  have hflags := foldl_no_stop st.currentSessionId botMsgId events
      { app := updateCurrentMessages
          { updateCurrentMessages { st with stopGeneration := false }
              (snapshot ++ [mkUserMessage userMsgId text p st.selectedModel]) now
            with isLoading := true }
          ((snapshot ++ [mkUserMessage userMsgId text p st.selectedModel])
            ++ [mkBotMessage botMsgId st.selectedModel]) now,
        fullText := "", lastUpdateTime := 0, broke := false }
      hnostop hflag0 rfl
  rw [runHandleSend_fail_eq st settings snapshot text p userMsgId botMsgId now events em
      hset hkey hflags.2.1]
  constructor
  · intro hpro
    have happ := applySendFailure_quota
        (events.foldl (streamStep st.currentSessionId botMsgId)
          { app := updateCurrentMessages
              { updateCurrentMessages { st with stopGeneration := false }
                  (snapshot ++ [mkUserMessage userMsgId text p st.selectedModel]) now
                with isLoading := true }
              ((snapshot ++ [mkUserMessage userMsgId text p st.selectedModel])
                ++ [mkBotMessage botMsgId st.selectedModel]) now,
            fullText := "", lastUpdateTime := 0, broke := false }).app
        st.currentSessionId sid botMsgId st.selectedModel em sF hq hsid hpro hfindF
    refine ⟨happ.1, ⟨_, happ.2, ?_, ?_⟩⟩
    · show List.countP (fun m => decide (m.id = botMsgId))
          (sF.messages.map (fun m =>
            if m.id = botMsgId
            then { m with text := quotaNotice, error := true, isStreaming := false }
            else m)) = 1
      rw [countId_patched sF.messages botMsgId
            (fun m => { m with text := quotaNotice, error := true, isStreaming := false })
            (fun m => rfl),
          countId_eq_of_ids sF.messages
            ((snapshot ++ [mkUserMessage userMsgId text p st.selectedModel])
              ++ [mkBotMessage botMsgId st.selectedModel]) botMsgId hidsF]
      exact countId_send_list snapshot (mkUserMessage userMsgId text p st.selectedModel)
        (mkBotMessage botMsgId st.selectedModel) botMsgId hfreshSnap hfreshUser rfl
    · intro m hm hid
      obtain ⟨m0, hm0⟩ := patched_mem sF.messages botMsgId
        (fun m => { m with text := quotaNotice, error := true, isStreaming := false })
        m hm hid
      rw [hm0]
      exact ⟨rfl, rfl, rfl⟩
  · intro hpro
    have happ := applySendFailure_generic
        (events.foldl (streamStep st.currentSessionId botMsgId)
          { app := updateCurrentMessages
              { updateCurrentMessages { st with stopGeneration := false }
                  (snapshot ++ [mkUserMessage userMsgId text p st.selectedModel]) now
                with isLoading := true }
              ((snapshot ++ [mkUserMessage userMsgId text p st.selectedModel])
                ++ [mkBotMessage botMsgId st.selectedModel]) now,
            fullText := "", lastUpdateTime := 0, broke := false }).app
        st.currentSessionId sid botMsgId st.selectedModel em sF
        (fun h => hpro h.2) hsid hfindF
    refine ⟨happ.1.trans hsel, ⟨_, happ.2, ?_, ?_⟩⟩
    · show List.countP (fun m => decide (m.id = botMsgId))
          (sF.messages.map (fun m =>
            if m.id = botMsgId
            then { m with text := m.text ++ connectionSuffix em, error := true,
                          isStreaming := false }
            else m)) = 1
      rw [countId_patched sF.messages botMsgId
            (fun m => { m with text := m.text ++ connectionSuffix em, error := true,
                               isStreaming := false })
            (fun m => rfl),
          countId_eq_of_ids sF.messages
            ((snapshot ++ [mkUserMessage userMsgId text p st.selectedModel])
              ++ [mkBotMessage botMsgId st.selectedModel]) botMsgId hidsF]
      exact countId_send_list snapshot (mkUserMessage userMsgId text p st.selectedModel)
        (mkBotMessage botMsgId st.selectedModel) botMsgId hfreshSnap hfreshUser rfl
    · intro m hm hid
      obtain ⟨m0, hm0⟩ := patched_mem sF.messages botMsgId
        (fun m => { m with text := m.text ++ connectionSuffix em, error := true,
                           isStreaming := false })
        m hm hid
      rw [hm0]
      exact ⟨⟨m0.text, rfl⟩, rfl, rfl⟩

theorem streamStep_stop_eq (sid : Option String) (b : String) (rs : RunState)
    (hb : rs.broke = false) :
    streamStep sid b rs StreamEvent.stopClick = { rs with app := handleStop rs.app } := by
  unfold streamStep
  rw [if_neg (by rw [hb]; simp)]

/-- C2 amended: when `stop()` is clicked mid-stream and the stream
afterwards yields another chunk or completes, the placeholder (the
unique message carrying the fresh placeholder id) ends terminal with
`isStreaming = false`, and its final text equals the buffer accumulated
before the stop WITHOUT the truncation marker — the final flush
overwrites the marker `handleStop` had appended.  (The marker survives
only when the stream never yields again nor completes.) -/
theorem stop_terminal_without_marker
    (st : AppState) (settings : UserSettings) (sid : String) (s0 : ChatSession)
    (snapshot : List Message) (text : String) (p : AttachmentsParam)
    (userMsgId botMsgId : String) (now : Nat)
    (pre post : List StreamEvent) (ending : StreamEnding)
    (hset : st.userSettings = some settings) (hkey : settings.apiKey ≠ "")
    (hsid : st.currentSessionId = some sid)
    (hfind : st.sessions.find? (fun s => decide (s.id = sid)) = some s0)
    (hfreshSnap : ∀ m ∈ snapshot, m.id ≠ botMsgId)
    (hfreshUser : userMsgId ≠ botMsgId)
    (hpre : ∀ ev ∈ pre, ev ≠ StreamEvent.stopClick)
    (hcont : ending = StreamEnding.complete ∨ ∃ t n, StreamEvent.chunk t n ∈ post) :
    ∃ s1, (runHandleSend st snapshot text p userMsgId botMsgId now
             (pre ++ StreamEvent.stopClick :: post) ending).sessions.find?
               (fun s => decide (s.id = sid)) = some s1 ∧
          List.countP (fun m => decide (m.id = botMsgId)) s1.messages = 1 ∧
          ∀ m ∈ s1.messages, m.id = botMsgId →
            m.isStreaming = false ∧ m.text = chunksTextOf pre := by
  have hsid0 : ({ st with stopGeneration := false } : AppState).currentSessionId = some sid :=
    hsid
  have hfind0 : ({ st with stopGeneration := false } : AppState).sessions.find?
      (fun s => decide (s.id = sid)) = some s0 := hfind
  have h1 := updateCurrentMessages_find { st with stopGeneration := false }
      sid s0 (snapshot ++ [mkUserMessage userMsgId text p st.selectedModel]) now hsid0 hfind0
  have hsid1 : ({ updateCurrentMessages { st with stopGeneration := false }
      (snapshot ++ [mkUserMessage userMsgId text p st.selectedModel]) now
      with isLoading := true } : AppState).currentSessionId = some sid :=
    (updateCurrentMessages_fields { st with stopGeneration := false }
      (snapshot ++ [mkUserMessage userMsgId text p st.selectedModel]) now).1.trans hsid0
  have h2 := updateCurrentMessages_find
      { updateCurrentMessages { st with stopGeneration := false }
          (snapshot ++ [mkUserMessage userMsgId text p st.selectedModel]) now
        with isLoading := true }
      sid _
      ((snapshot ++ [mkUserMessage userMsgId text p st.selectedModel])
        ++ [mkBotMessage botMsgId st.selectedModel]) now hsid1 h1
  obtain ⟨sF, hfindF, hidsF⟩ := foldl_all (streamStep st.currentSessionId botMsgId)
      (fun rs => ∃ s, rs.app.sessions.find? (fun s => decide (s.id = sid)) = some s ∧
          s.messages.map (fun m => m.id) =
            ((snapshot ++ [mkUserMessage userMsgId text p st.selectedModel])
              ++ [mkBotMessage botMsgId st.selectedModel]).map (fun m => m.id))
      { app := updateCurrentMessages
          { updateCurrentMessages { st with stopGeneration := false }
              (snapshot ++ [mkUserMessage userMsgId text p st.selectedModel]) now
            with isLoading := true }
          ((snapshot ++ [mkUserMessage userMsgId text p st.selectedModel])
            ++ [mkBotMessage botMsgId st.selectedModel]) now,
        fullText := "", lastUpdateTime := 0, broke := false }
      (pre ++ StreamEvent.stopClick :: post) ⟨_, h2, rfl⟩
      (fun rs ev h => shape_streamStep st.currentSessionId botMsgId sid _ rs ev h)
  have hflag0 : ({ app := updateCurrentMessages
                     { updateCurrentMessages { st with stopGeneration := false }
                         (snapshot ++ [mkUserMessage userMsgId text p st.selectedModel]) now
                       with isLoading := true }
                     ((snapshot ++ [mkUserMessage userMsgId text p st.selectedModel])
                       ++ [mkBotMessage botMsgId st.selectedModel]) now,
                   fullText := "", lastUpdateTime := 0,
                   broke := false } : RunState).app.stopGeneration = false :=
    (sendPrep_fields { st with stopGeneration := false }
      (snapshot ++ [mkUserMessage userMsgId text p st.selectedModel])
      ((snapshot ++ [mkUserMessage userMsgId text p st.selectedModel])
        ++ [mkBotMessage botMsgId st.selectedModel]) now now true).2.1
  have hpreFold := foldl_no_stop st.currentSessionId botMsgId pre
      { app := updateCurrentMessages
          { updateCurrentMessages { st with stopGeneration := false }
              (snapshot ++ [mkUserMessage userMsgId text p st.selectedModel]) now
            with isLoading := true }
          ((snapshot ++ [mkUserMessage userMsgId text p st.selectedModel])
            ++ [mkBotMessage botMsgId st.selectedModel]) now,
        fullText := "", lastUpdateTime := 0, broke := false }
      hpre hflag0 rfl
  have hfoldEvents : (pre ++ StreamEvent.stopClick :: post).foldl
      (streamStep st.currentSessionId botMsgId)
      { app := updateCurrentMessages
          { updateCurrentMessages { st with stopGeneration := false }
              (snapshot ++ [mkUserMessage userMsgId text p st.selectedModel]) now
            with isLoading := true }
          ((snapshot ++ [mkUserMessage userMsgId text p st.selectedModel])
            ++ [mkBotMessage botMsgId st.selectedModel]) now,
        fullText := "", lastUpdateTime := 0, broke := false } =
      post.foldl (streamStep st.currentSessionId botMsgId)
        (streamStep st.currentSessionId botMsgId
          (pre.foldl (streamStep st.currentSessionId botMsgId)
            { app := updateCurrentMessages
                { updateCurrentMessages { st with stopGeneration := false }
                    (snapshot ++ [mkUserMessage userMsgId text p st.selectedModel]) now
                  with isLoading := true }
                ((snapshot ++ [mkUserMessage userMsgId text p st.selectedModel])
                  ++ [mkBotMessage botMsgId st.selectedModel]) now,
              fullText := "", lastUpdateTime := 0, broke := false })
          StreamEvent.stopClick) := by
    rw [List.foldl_append, List.foldl_cons]
  have hflagB : (streamStep st.currentSessionId botMsgId
      (pre.foldl (streamStep st.currentSessionId botMsgId)
        { app := updateCurrentMessages
            { updateCurrentMessages { st with stopGeneration := false }
                (snapshot ++ [mkUserMessage userMsgId text p st.selectedModel]) now
              with isLoading := true }
            ((snapshot ++ [mkUserMessage userMsgId text p st.selectedModel])
              ++ [mkBotMessage botMsgId st.selectedModel]) now,
          fullText := "", lastUpdateTime := 0, broke := false })
      StreamEvent.stopClick).app.stopGeneration = true := by
    rw [streamStep_stop_eq _ _ _ hpreFold.2.1]
    exact (handleStop_fields _).2.2.2
  have hfullB : (streamStep st.currentSessionId botMsgId
      (pre.foldl (streamStep st.currentSessionId botMsgId)
        { app := updateCurrentMessages
            { updateCurrentMessages { st with stopGeneration := false }
                (snapshot ++ [mkUserMessage userMsgId text p st.selectedModel]) now
              with isLoading := true }
            ((snapshot ++ [mkUserMessage userMsgId text p st.selectedModel])
              ++ [mkBotMessage botMsgId st.selectedModel]) now,
          fullText := "", lastUpdateTime := 0, broke := false })
      StreamEvent.stopClick).fullText = chunksTextOf pre := by
    rw [streamStep_stop_eq _ _ _ hpreFold.2.1]
    exact hpreFold.1
  have hpostFold := foldl_flag_up st.currentSessionId botMsgId post _ hflagB
  have hTextN : ((pre ++ StreamEvent.stopClick :: post).foldl
      (streamStep st.currentSessionId botMsgId)
      { app := updateCurrentMessages
          { updateCurrentMessages { st with stopGeneration := false }
              (snapshot ++ [mkUserMessage userMsgId text p st.selectedModel]) now
            with isLoading := true }
          ((snapshot ++ [mkUserMessage userMsgId text p st.selectedModel])
            ++ [mkBotMessage botMsgId st.selectedModel]) now,
        fullText := "", lastUpdateTime := 0, broke := false }).fullText
      = chunksTextOf pre := by
    rw [hfoldEvents, hpostFold.1, hfullB]
  have hmain : ∀ fullText, fullText = chunksTextOf pre →
      ∃ s1, (finalFlush ((pre ++ StreamEvent.stopClick :: post).foldl
               (streamStep st.currentSessionId botMsgId)
               { app := updateCurrentMessages
                   { updateCurrentMessages { st with stopGeneration := false }
                       (snapshot ++ [mkUserMessage userMsgId text p st.selectedModel]) now
                     with isLoading := true }
                   ((snapshot ++ [mkUserMessage userMsgId text p st.selectedModel])
                     ++ [mkBotMessage botMsgId st.selectedModel]) now,
                 fullText := "", lastUpdateTime := 0, broke := false }).app
               st.currentSessionId botMsgId fullText).sessions.find?
                 (fun s => decide (s.id = sid)) = some s1 ∧
            List.countP (fun m => decide (m.id = botMsgId)) s1.messages = 1 ∧
            ∀ m ∈ s1.messages, m.id = botMsgId →
              m.isStreaming = false ∧ m.text = chunksTextOf pre := by
    intro fullText hft
    have hff := finalFlush_find _ st.currentSessionId sid botMsgId fullText sF hsid hfindF
    refine ⟨_, hff, ?_, ?_⟩
    · show List.countP (fun m => decide (m.id = botMsgId))
          (sF.messages.map (fun m =>
            if m.id = botMsgId
            then { m with text := fullText, isStreaming := false } else m)) = 1
      rw [countId_patched sF.messages botMsgId
            (fun m => { m with text := fullText, isStreaming := false })
            (fun m => rfl),
          countId_eq_of_ids sF.messages
            ((snapshot ++ [mkUserMessage userMsgId text p st.selectedModel])
              ++ [mkBotMessage botMsgId st.selectedModel]) botMsgId hidsF]
      exact countId_send_list snapshot (mkUserMessage userMsgId text p st.selectedModel)
        (mkBotMessage botMsgId st.selectedModel) botMsgId hfreshSnap hfreshUser rfl
    · intro m hm hid
      obtain ⟨m0, hm0⟩ := patched_mem sF.messages botMsgId
        (fun m => { m with text := fullText, isStreaming := false }) m hm hid
      rw [hm0]
      exact ⟨rfl, hft⟩
  rcases hcont with hend | ⟨t, n, hch⟩
  · subst hend
    rw [runHandleSend_complete_eq st settings snapshot text p userMsgId botMsgId now
        (pre ++ StreamEvent.stopClick :: post) hset hkey]
    exact hmain _ hTextN
  · have hbrokeN : ((pre ++ StreamEvent.stopClick :: post).foldl
        (streamStep st.currentSessionId botMsgId)
        { app := updateCurrentMessages
            { updateCurrentMessages { st with stopGeneration := false }
                (snapshot ++ [mkUserMessage userMsgId text p st.selectedModel]) now
              with isLoading := true }
            ((snapshot ++ [mkUserMessage userMsgId text p st.selectedModel])
              ++ [mkBotMessage botMsgId st.selectedModel]) now,
          fullText := "", lastUpdateTime := 0, broke := false }).broke = true := by
      rw [hfoldEvents]
      exact foldl_broke_of_chunk st.currentSessionId botMsgId post _ hflagB ⟨t, n, hch⟩
    rw [runHandleSend_broke_eq st settings snapshot text p userMsgId botMsgId now
        (pre ++ StreamEvent.stopClick :: post) ending hset hkey hbrokeN]
    exact hmain _ hTextN

/-- C2 counterexample: stop is clicked after the chunk `"Hello "`
arrived; the stream then yields one more chunk, the loop observes the
flag and breaks, and the final update runs.  The placeholder ends with
text `"Hello "` — the accumulated buffer at cancellation time WITHOUT
the truncation marker — contradicting the claimed
`"Hello " ++ "..."`. -/
theorem stop_marker_overwritten_cex :
    (currentMessages (handleSend demoState "hi" (AttachmentsParam.files []) "u9" "b9" 100
        [StreamEvent.chunk "Hello " 100, StreamEvent.stopClick, StreamEvent.chunk "world" 200]
        StreamEnding.complete)).map (fun m => (m.text, m.isStreaming)) =
      [("hello", false), ("reply", false), ("hi", false), ("Hello ", false)] ∧
    ("Hello " : String) ≠ "Hello " ++ "..." :=
  ⟨rfl, by decide⟩

/-- C2 witness: the amended theorem applied to a concrete run — one
chunk, stop, one more chunk, stream completes. -/
theorem stop_terminal_without_marker_witness :
    ∃ s1, (runHandleSend demoState [] "hi" (AttachmentsParam.files []) "u9" "b9" 100
             ([StreamEvent.chunk "Hello " 100] ++ StreamEvent.stopClick
               :: [StreamEvent.chunk "world" 200]) StreamEnding.complete).sessions.find?
               (fun s => decide (s.id = "s1")) = some s1 ∧
          List.countP (fun m => decide (m.id = "b9")) s1.messages = 1 ∧
          ∀ m ∈ s1.messages, m.id = "b9" →
            m.isStreaming = false ∧ m.text = chunksTextOf [StreamEvent.chunk "Hello " 100] :=
  stop_terminal_without_marker demoState demoSettings "s1" demoSession [] "hi"
    (AttachmentsParam.files []) "u9" "b9" 100 [StreamEvent.chunk "Hello " 100]
    [StreamEvent.chunk "world" 200] StreamEnding.complete rfl (by decide) rfl rfl
    (by simp) (by decide) (by decide) (Or.inl rfl)

/-- C3 witness: a quota-worded error on the top-tier model at a concrete
state — instantiates the theorem and takes the top-tier branch. -/
theorem quota_fallback_spec_witness :
    (runHandleSend demoState [] "hi" (AttachmentsParam.files []) "u9" "b9" 100 []
        (StreamEnding.fail (some "quota"))).selectedModel = GeminiModelId.gemini25Flash ∧
    ∃ s1, (runHandleSend demoState [] "hi" (AttachmentsParam.files []) "u9" "b9" 100 []
             (StreamEnding.fail (some "quota"))).sessions.find?
               (fun s => decide (s.id = "s1")) = some s1 ∧
          List.countP (fun m => decide (m.id = "b9")) s1.messages = 1 ∧
          ∀ m ∈ s1.messages, m.id = "b9" →
            m.text = quotaNotice ∧ m.error = true ∧ m.isStreaming = false :=
  (quota_fallback_spec demoState demoSettings "s1" demoSession [] "hi"
     (AttachmentsParam.files []) "u9" "b9" 100 [] (some "quota") rfl (by decide) rfl rfl
     (by simp) (by decide) (by simp) (by decide)).1 rfl

theorem all_sessions_mapCurrent (sessions : List ChatSession) (sid : String)
    (g : ChatSession → ChatSession) (P : ChatSession → Prop)
    (hP : ∀ s ∈ sessions, P s) (hg : ∀ s ∈ sessions, P (g s)) :
    ∀ s ∈ mapCurrentSessions sessions sid g, P s := by
  intro s hs
  unfold mapCurrentSessions at hs
  obtain ⟨s0, hs0, rfl⟩ := List.mem_map.mp hs
  by_cases h : s0.id = sid
  · rw [if_pos h]
    exact hg s0 hs0
  · rw [if_neg h]
    exact hP s0 hs0

theorem streamingBound_update (st : AppState) (ms : List Message) (now : Nat)
    (h : ∀ s ∈ st.sessions, countStreaming s.messages ≤ 1)
    (hms : countStreaming ms ≤ 1) :
    ∀ s ∈ (updateCurrentMessages st ms now).sessions, countStreaming s.messages ≤ 1 := by
  unfold updateCurrentMessages
  cases hc : st.currentSessionId with
  | none => exact h
  | some sid =>
      exact all_sessions_mapCurrent st.sessions sid
        (fun s => { s with messages := ms, title := deriveNewTitle s ms, updatedAt := now })
        (fun s => countStreaming s.messages ≤ 1) h (fun s _ => hms)

theorem streamingBound_patchBot (st : AppState) (sid : Option String) (b : String)
    (f : Message → Message) (hf : ∀ m, (f m).isStreaming = true → m.isStreaming = true)
    (h : ∀ s ∈ st.sessions, countStreaming s.messages ≤ 1) :
    ∀ s ∈ (patchBotMessage st sid b f).sessions, countStreaming s.messages ≤ 1 := by
  cases sid with
  | none => exact h
  | some sid0 =>
      exact all_sessions_mapCurrent st.sessions sid0
        (fun s => { s with messages := s.messages.map (fun m => if m.id = b then f m else m) })
        (fun s => countStreaming s.messages ≤ 1) h
        (fun s hsmem => le_trans (countStreaming_map_le s.messages
          (fun m => if m.id = b then f m else m)
          (fun m hm => by
            by_cases hmb : m.id = b
            · exact hf m (by simpa [hmb] using hm)
            · simpa [hmb] using hm)) (h s hsmem))

theorem streamingBound_handleStop (st : AppState)
    (h : ∀ s ∈ st.sessions, countStreaming s.messages ≤ 1) :
    ∀ s ∈ (handleStop st).sessions, countStreaming s.messages ≤ 1 := by
  unfold handleStop
  cases hc : st.currentSessionId with
  | none => exact h
  | some sid0 =>
      exact all_sessions_mapCurrent st.sessions sid0
        (fun s => { s with messages := s.messages.map (fun m =>
            if m.isStreaming then { m with isStreaming := false, text := m.text ++ "..." }
            else m) })
        (fun s => countStreaming s.messages ≤ 1) h
        (fun s hsmem => le_trans (countStreaming_map_le s.messages
          (fun m => if m.isStreaming
                    then { m with isStreaming := false, text := m.text ++ "..." } else m)
          (fun m hm => by
            by_cases hms : m.isStreaming = true
            · exact hms
            · simp [hms] at hm)) (h s hsmem))

theorem streamStep_chunk_eq (sid : Option String) (b : String) (rs : RunState)
    (t : String) (tNow : Nat) (hb : rs.broke = false) :
    streamStep sid b rs (StreamEvent.chunk t tNow) =
      if rs.app.stopGeneration = true then { rs with broke := true }
      else if tNow - rs.lastUpdateTime > 50 then
        { rs with fullText := rs.fullText ++ t, lastUpdateTime := tNow,
                  app := patchBotMessage rs.app sid b
                           (fun m => { m with text := rs.fullText ++ t }) }
      else { rs with fullText := rs.fullText ++ t } := by
  unfold streamStep
  rw [if_neg (by rw [hb]; simp)]

theorem streamingBound_streamStep (sid : Option String) (b : String) (rs : RunState)
    (ev : StreamEvent)
    (h : ∀ s ∈ rs.app.sessions, countStreaming s.messages ≤ 1) :
    ∀ s ∈ (streamStep sid b rs ev).app.sessions, countStreaming s.messages ≤ 1 := by
  by_cases hb : rs.broke = true
  · have hstep : streamStep sid b rs ev = rs := by
      unfold streamStep
      rw [if_pos hb]
    rw [hstep]
    exact h
  · have hb' : rs.broke = false := by
      revert hb
      cases rs.broke <;> simp
    cases ev with
    | stopClick =>
        rw [streamStep_stop_eq sid b rs hb']
        exact streamingBound_handleStop rs.app h
    | chunk t tNow =>
        rw [streamStep_chunk_eq sid b rs t tNow hb']
        by_cases hf : rs.app.stopGeneration = true
        · rw [if_pos hf]
          exact h
        · rw [if_neg hf]
          by_cases ht : tNow - rs.lastUpdateTime > 50
          · rw [if_pos ht]
            exact streamingBound_patchBot rs.app sid b
              (fun m => { m with text := rs.fullText ++ t }) (fun m hm => hm) h
          · rw [if_neg ht]
            exact h

theorem sendTrace_noSettings (st : AppState) (snapshot : List Message) (text : String)
    (p : AttachmentsParam) (userMsgId botMsgId : String) (now : Nat)
    (events : List StreamEvent) (ending : StreamEnding)
    (h : st.userSettings = none) :
    sendTrace st snapshot text p userMsgId botMsgId now events ending = [st] := by
  unfold sendTrace
  rw [h]

theorem sendTrace_emptyKey (st : AppState) (settings : UserSettings)
    (snapshot : List Message) (text : String)
    (p : AttachmentsParam) (userMsgId botMsgId : String) (now : Nat)
    (events : List StreamEvent) (ending : StreamEnding)
    (hset : st.userSettings = some settings) (hkey : settings.apiKey = "") :
    sendTrace st snapshot text p userMsgId botMsgId now events ending = [st] := by
  unfold sendTrace
  rw [hset]
  exact if_pos hkey

theorem sendTrace_unfold (st : AppState) (settings : UserSettings)
    (snapshot : List Message) (text : String)
    (p : AttachmentsParam) (userMsgId botMsgId : String) (now : Nat)
    (events : List StreamEvent) (ending : StreamEnding)
    (hset : st.userSettings = some settings) (hkey : settings.apiKey ≠ "") :
    sendTrace st snapshot text p userMsgId botMsgId now events ending =
      st :: { updateCurrentMessages { st with stopGeneration := false }
                (snapshot ++ [mkUserMessage userMsgId text p st.selectedModel]) now
              with isLoading := true }
         :: updateCurrentMessages
              { updateCurrentMessages { st with stopGeneration := false }
                  (snapshot ++ [mkUserMessage userMsgId text p st.selectedModel]) now
                with isLoading := true }
              ((snapshot ++ [mkUserMessage userMsgId text p st.selectedModel])
                ++ [mkBotMessage botMsgId st.selectedModel]) now
         :: ((events.scanl (streamStep st.currentSessionId botMsgId)
              { app := updateCurrentMessages
                  { updateCurrentMessages { st with stopGeneration := false }
                      (snapshot ++ [mkUserMessage userMsgId text p st.selectedModel]) now
                    with isLoading := true }
                  ((snapshot ++ [mkUserMessage userMsgId text p st.selectedModel])
                    ++ [mkBotMessage botMsgId st.selectedModel]) now,
                fullText := "", lastUpdateTime := 0, broke := false }).map RunState.app)
            ++ [runHandleSend st snapshot text p userMsgId botMsgId now events ending] := by
  unfold sendTrace
  rw [hset]
  exact if_neg hkey

theorem countStreaming_currentMessages (st : AppState)
    (hq : ∀ s ∈ st.sessions, countStreaming s.messages = 0) :
    countStreaming (currentMessages st) = 0 := by
  cases hcs : currentSession st with
  | none =>
      unfold currentMessages
      rw [hcs]
      rfl
  | some s =>
      have hmem : s ∈ st.sessions := by
        unfold currentSession at hcs
        cases hc : st.currentSessionId with
        | none =>
            rw [hc] at hcs
            cases hcs
        | some sid =>
            rw [hc] at hcs
            exact List.mem_of_find?_eq_some hcs
      unfold currentMessages
      rw [hcs]
      exact hq s hmem

theorem streamingBound_finalFlush (app : AppState) (sid : Option String) (b ft : String)
    (h : ∀ s ∈ app.sessions, countStreaming s.messages ≤ 1) :
    ∀ s ∈ (finalFlush app sid b ft).sessions, countStreaming s.messages ≤ 1 :=
  streamingBound_patchBot app sid b (fun m => { m with text := ft, isStreaming := false })
    (fun m hm => by simp at hm) h

theorem streamingBound_applySendFailure (app : AppState) (sid : Option String) (b : String)
    (selModel : GeminiModelId) (em : Option String)
    (h : ∀ s ∈ app.sessions, countStreaming s.messages ≤ 1) :
    ∀ s ∈ (applySendFailure app sid b selModel em).sessions,
      countStreaming s.messages ≤ 1 := by
  unfold applySendFailure
  by_cases hqp : isQuotaError em = true ∧ selModel = GeminiModelId.gemini3ProPreview
  · rw [if_pos hqp]
    exact streamingBound_patchBot _ sid b
      (fun m => { m with text := quotaNotice, error := true, isStreaming := false })
      (fun m hm => by simp at hm) (fun s hs => h s hs)
  · rw [if_neg hqp]
    exact streamingBound_patchBot _ sid b
      (fun m => { m with text := m.text ++ connectionSuffix em, error := true,
                         isStreaming := false })
      (fun m hm => by simp at hm) h

/-- C7: starting from a quiescent state (no session has a streaming
message), every state an observer can see during a run of `handleSend` —
entry, after the user append, after the placeholder append, after each
consume-loop step, and the final state on every ending — has at most one
message with `isStreaming = true` in every session: the placeholder
append creates the single in-flight message and every terminal path
(final flush, quota fallback, generic error, stop) clears it or leaves
the count unchanged. -/
theorem streaming_invariant (st : AppState) (text : String) (p : AttachmentsParam)
    (userMsgId botMsgId : String) (now : Nat) (events : List StreamEvent)
    (ending : StreamEnding)
    (hq : ∀ s ∈ st.sessions, countStreaming s.messages = 0) :
    ∀ a ∈ sendTrace st (currentMessages st) text p userMsgId botMsgId now events ending,
      ∀ s ∈ a.sessions, countStreaming s.messages ≤ 1 := by
  have hbase : ∀ s ∈ st.sessions, countStreaming s.messages ≤ 1 := by
    intro s hs
    rw [hq s hs]
    omega
  cases hset : st.userSettings with
  | none =>
      rw [sendTrace_noSettings st (currentMessages st) text p userMsgId botMsgId now
          events ending hset]
      intro a ha
      rcases List.mem_cons.mp ha with rfl | ha
      · exact hbase
      · cases ha
  | some settings =>
      by_cases hkey : settings.apiKey = ""
      · rw [sendTrace_emptyKey st settings (currentMessages st) text p userMsgId botMsgId
            now events ending hset hkey]
        intro a ha
        rcases List.mem_cons.mp ha with rfl | ha
        · exact hbase
        · cases ha
      · rw [sendTrace_unfold st settings (currentMessages st) text p userMsgId botMsgId
            now events ending hset hkey]
        have hsnap := countStreaming_currentMessages st hq
        have huser : countStreaming [mkUserMessage userMsgId text p st.selectedModel] = 0 := by
          simp [countStreaming, List.countP_cons, mkUserMessage]
        have hbot : countStreaming [mkBotMessage botMsgId st.selectedModel] = 1 := by
          simp [countStreaming, List.countP_cons, mkBotMessage]
        have hcount1 : countStreaming ((currentMessages st)
            ++ [mkUserMessage userMsgId text p st.selectedModel]) ≤ 1 := by
          rw [countStreaming_append, hsnap, huser]
          omega
        have hcount2 : countStreaming (((currentMessages st)
            ++ [mkUserMessage userMsgId text p st.selectedModel])
            ++ [mkBotMessage botMsgId st.selectedModel]) ≤ 1 := by
          rw [countStreaming_append, countStreaming_append, hsnap, huser, hbot]
        have hP1 : ∀ s ∈ (updateCurrentMessages { st with stopGeneration := false }
            ((currentMessages st) ++ [mkUserMessage userMsgId text p st.selectedModel])
            now).sessions, countStreaming s.messages ≤ 1 :=
          streamingBound_update { st with stopGeneration := false } _ now hbase hcount1
        have hP2 : ∀ s ∈ (updateCurrentMessages
            { updateCurrentMessages { st with stopGeneration := false }
                ((currentMessages st) ++ [mkUserMessage userMsgId text p st.selectedModel])
                now
              with isLoading := true }
            (((currentMessages st) ++ [mkUserMessage userMsgId text p st.selectedModel])
              ++ [mkBotMessage botMsgId st.selectedModel]) now).sessions,
            countStreaming s.messages ≤ 1 :=
          streamingBound_update _ _ now hP1 hcount2
        have hPN := foldl_all (streamStep st.currentSessionId botMsgId)
            (fun rs => ∀ s ∈ rs.app.sessions, countStreaming s.messages ≤ 1)
            { app := updateCurrentMessages
                { updateCurrentMessages { st with stopGeneration := false }
                    ((currentMessages st)
                      ++ [mkUserMessage userMsgId text p st.selectedModel]) now
                  with isLoading := true }
                (((currentMessages st) ++ [mkUserMessage userMsgId text p st.selectedModel])
                  ++ [mkBotMessage botMsgId st.selectedModel]) now,
              fullText := "", lastUpdateTime := 0, broke := false }
            events hP2 (fun rs ev h => streamingBound_streamStep _ _ rs ev h)
        have hfinal : ∀ s ∈ (runHandleSend st (currentMessages st) text p userMsgId
            botMsgId now events ending).sessions, countStreaming s.messages ≤ 1 := by
          rw [runHandleSend_unfold st settings (currentMessages st) text p userMsgId
              botMsgId now events ending hset hkey]
          by_cases hb : ((events.foldl (streamStep st.currentSessionId botMsgId)
              { app := updateCurrentMessages
                  { updateCurrentMessages { st with stopGeneration := false }
                      ((currentMessages st)
                        ++ [mkUserMessage userMsgId text p st.selectedModel]) now
                    with isLoading := true }
                  (((currentMessages st)
                    ++ [mkUserMessage userMsgId text p st.selectedModel])
                    ++ [mkBotMessage botMsgId st.selectedModel]) now,
                fullText := "", lastUpdateTime := 0, broke := false }).broke = true)
          · rw [if_pos hb]
            exact streamingBound_finalFlush _ _ _ _ hPN
          · rw [if_neg hb]
            cases ending with
            | complete => exact streamingBound_finalFlush _ _ _ _ hPN
            | hang => exact hPN
            | fail em => exact streamingBound_applySendFailure _ _ _ _ _ hPN
        intro a ha
        rcases List.mem_cons.mp ha with rfl | ha
        · exact hbase
        rcases List.mem_cons.mp ha with rfl | ha
        · exact hP1
        rcases List.mem_cons.mp ha with rfl | ha
        · exact hP2
        rcases List.mem_append.mp ha with ha | ha
        · obtain ⟨rs, hrs, rfl⟩ := List.mem_map.mp ha
          exact scanl_all (streamStep st.currentSessionId botMsgId)
            (fun rs => ∀ s ∈ rs.app.sessions, countStreaming s.messages ≤ 1)
            { app := updateCurrentMessages
                { updateCurrentMessages { st with stopGeneration := false }
                    ((currentMessages st)
                      ++ [mkUserMessage userMsgId text p st.selectedModel]) now
                  with isLoading := true }
                (((currentMessages st) ++ [mkUserMessage userMsgId text p st.selectedModel])
                  ++ [mkBotMessage botMsgId st.selectedModel]) now,
              fullText := "", lastUpdateTime := 0, broke := false }
            events hP2 (fun rs ev h => streamingBound_streamStep _ _ rs ev h) rs hrs
        · rcases List.mem_cons.mp ha with rfl | ha
          · exact hfinal
          · cases ha

/-- C7 witness: the invariant instantiated on a concrete quiescent
state, a concrete chunk/stop run, a concrete state of the trace and a
concrete session of that state. -/
theorem streaming_invariant_witness :
    countStreaming demoSession.messages ≤ 1 :=
  streaming_invariant demoState "hi" (AttachmentsParam.files []) "u9" "b9" 100
    [StreamEvent.chunk "He" 100, StreamEvent.stopClick] StreamEnding.complete (by decide)
    demoState (by decide) demoSession (by decide)
